import Mathlib

/-!
Verification model of the machine-id reset tool (`reset_mashine_id.py`).

The script orchestrates a reset of five persisted identifiers across four
storage backends: a JSON document (`storage.json`), an embedded SQLite
key/value table (`state.vscdb`, table `ItemTable`), a flat marker file
(`machineId`), and OS-level registry / property-list entries.

The embedding below models:
  - Python dictionaries over string keys/values as association lists
    (`pyGet`, `pySet`, `pyUpdate` mirror `d.get`, `d[k] = v`, `d.update`);
  - `uuid.uuid4()` as a function of a 128-bit random draw (`uuid4Nat`
    applies the version/variant masking, `uuidStr` is `str(uuid)`);
  - the mutating functions of `MachineIDResetter` as explicit state
    transformers `Env → World → Bool × World × List Event`, where `Env`
    carries the outcomes of the fallible I/O operations (a flag per
    `try`-protected operation), `World` is the durable state the script can
    touch, and `Event` records the writes, sub-calls, prompts and printed
    messages, in program order.  Console messages printed through the
    translator are recorded by their translation key; inline (untranslated)
    prints are recorded under stable `literal.*` markers; consecutive
    purely-decorative prints of a single block are collapsed into one
    marker event.
-/

/-- A Python `dict[str, str]` (insertion-ordered association list). -/
abbrev JsonDoc := List (String × String)

/-- Python `d.get(k)`: first binding of `k`, if any. -/
def pyGet (d : JsonDoc) (k : String) : Option String :=
  (d.find? (fun p => p.1 == k)).map (fun p => p.2)

/-- Python `d.get(k, dflt)`. -/
def pyGetD (d : JsonDoc) (k dflt : String) : String :=
  (pyGet d k).getD dflt

/-- Python `d[k] = v`: replace the binding in place, or append it. -/
def pySet (d : JsonDoc) (k v : String) : JsonDoc :=
  if d.any (fun p => p.1 == k) then
    d.map (fun p => if p.1 == k then (k, v) else p)
  else
    d ++ [(k, v)]

/-- Python `d.update(u)`: apply `d[k] = v` for every pair of `u` in order. -/
def pyUpdate (d u : JsonDoc) : JsonDoc :=
  u.foldl (fun a p => pySet a p.1 p.2) d

/-- Python truthiness test `not d.get(k)` for string-valued dicts:
true when the key is absent or bound to the empty string. -/
def pyFalsy (d : JsonDoc) (k : String) : Bool :=
  match pyGet d k with
  | none => true
  | some s => s == ""

/-- Python `s.lower()` (character-wise; the prompt answers are ASCII). -/
def pyLower (s : String) : String := String.mk (s.data.map Char.toLower)

/-- The lowercase hexadecimal digits, as used by `str(uuid.UUID(...))`. -/
def hexChars : List Char := "0123456789abcdef".data

/-- Hex digit of `n % 16`. -/
def hexDigit (n : Nat) : Char := hexChars.getD (n % 16) '0'

/-- Big-endian fixed-width hexadecimal rendering of `n mod 16 ^ w`,
mirroring Python's `'%0{w}x' % n` for `n < 16 ^ w`. -/
def toHexList : Nat → Nat → List Char
  | 0, _ => []
  | w + 1, n => toHexList w (n / 16) ++ [hexDigit (n % 16)]

def toHex (w n : Nat) : String := String.mk (toHexList w n)

/-- `str(uuid.UUID(int=m))`: the 32 hex nibbles of the 128-bit integer `m`
grouped 8-4-4-4-12 and joined with dashes. -/
def uuidStr (m : Nat) : String :=
  toHex 8 (m / 2 ^ 96) ++ "-" ++ toHex 4 (m / 2 ^ 80) ++ "-" ++
    toHex 4 (m / 2 ^ 64) ++ "-" ++ toHex 4 (m / 2 ^ 48) ++ "-" ++ toHex 12 m

/-- The 128-bit integer of `uuid.uuid4()` as a function of the raw 128-bit
random draw `r`: the version nibble (bits 76-79) is forced to `4` and the
variant bits (62-63) to `10`, exactly as `UUID(bytes=..., version=4)` does. -/
def uuid4Nat (r : Nat) : Nat :=
  let n := r % 2 ^ 128
  (n / 2 ^ 80) * 2 ^ 80
    + (2 ^ 14 + (n / 2 ^ 64) % 2 ^ 12) * 2 ^ 64
    + (2 ^ 7 + (n / 2 ^ 56) % 2 ^ 6) * 2 ^ 56
    + n % 2 ^ 56

/-- `str(uuid.uuid4())` for the random draw `r`. -/
def uuid4 (r : Nat) : String := uuidStr (uuid4Nat r)

/-- A 36-character lowercase UUID-shaped string: five dash-separated groups of
8, 4, 4, 4 and 12 lowercase hex digits. -/
def IsUuidFormat (s : String) : Prop :=
  ∃ g1 g2 g3 g4 g5 : List Char,
    s.data = g1 ++ '-' :: (g2 ++ '-' :: (g3 ++ '-' :: (g4 ++ '-' :: g5))) ∧
    g1.length = 8 ∧ g2.length = 4 ∧ g3.length = 4 ∧ g4.length = 4 ∧ g5.length = 12 ∧
    (∀ c, (c ∈ g1 ∨ c ∈ g2 ∨ c ∈ g3 ∨ c ∈ g4 ∨ c ∈ g5) → c ∈ hexChars)

/-- The five identifier keys managed by the tool, in the order the source
lists them (`generate_new_ids`, `backup_current_ids`). -/
def idKeys : List String :=
  ["telemetry.devDeviceId", "telemetry.macMachineId", "telemetry.machineId",
   "telemetry.sqmId", "storage.serviceMachineId"]

inductive Platform where
  | win32
  | darwin
  | linuxOs
  deriving DecidableEq, Repr

/-- State of the `state.vscdb` SQLite database: whether `ItemTable` exists,
and its rows (a key-value map). -/
structure SqliteState where
  hasTable : Bool
  rows : JsonDoc
  deriving DecidableEq, Repr

/-- The durable state the script can touch.  `none` means the file does not
exist.  Backup copies are accumulated in creation order. -/
structure World where
  storage : Option JsonDoc
  sqlite : Option SqliteState
  machineId : Option String
  backupFiles : List JsonDoc
  storageBakCopies : List JsonDoc
  machineIdBakCopies : List String
  regMachineGuid : Option String
  regSqmMachineId : Option String
  platformUuid : Option String
  deriving DecidableEq, Repr

/-- Observable actions of a run, in program order: durable writes, sub-calls
of the orchestrator, interactive prompts, and console messages (recorded by
translation key, or by a `literal.*` marker for untranslated prints). -/
inductive Event where
  | printed (key : String)
  | prompted (which : Nat)
  | calledBackupCurrentIds
  | calledGenerateIds
  | calledUpdateCurrentFile
  | calledUpdateSqliteDb
  | calledUpdateMachineIdFile
  | calledUpdateSystemIds
  | wroteBackupFile (c : JsonDoc)
  | copiedStorageBackup (c : JsonDoc)
  | wroteStorage (c : JsonDoc)
  | createdItemTable
  | upsertedRow (k v : String)
  | copiedMachineIdBackup (c : String)
  | wroteMachineId (c : String)
  | wroteRegMachineGuid (v : String)
  | wroteRegSqmMachineId (v : String)
  | wrotePlatformUuid (v : String)
  deriving DecidableEq, Repr

/-- Environment of one invocation: the platform, the 128-bit random draws
consumed by `uuid.uuid4()`, the result of the `check_cursor_running` call,
the operator's two prompt answers, and one success flag per fallible
`try`-protected I/O operation (`True` = the operation does not raise). -/
structure Env where
  platform : Platform
  rand : Fin 5 → Nat
  procResult : Option Bool × Option Nat
  answerRunning : String
  answerConfirm : String
  storageReadOk : Bool
  storageCopyOk : Bool
  storageWriteOk : Bool
  backupWriteOk : Bool
  sqliteConnectOk : Bool
  machineIdMkdirOk : Bool
  machineIdCopyOk : Bool
  machineIdWriteOk : Bool
  regCryptoOpenOk : Bool
  regSqmKeyExists : Bool
  regSqmOpenOk : Bool
  plistExists : Bool
  plutilOk : Bool

/-- `MachineIDResetter.generate_new_ids`: builds the dict of five fresh
UUID4 strings (and prints the announcement). -/
def generate_new_ids (r : Fin 5 → Nat) : JsonDoc × List Event :=
  ([("telemetry.devDeviceId", uuid4 (r 0)),
    ("telemetry.macMachineId", uuid4 (r 1)),
    ("telemetry.machineId", uuid4 (r 2)),
    ("telemetry.sqmId", uuid4 (r 3)),
    ("storage.serviceMachineId", uuid4 (r 4))],
   [Event.printed "reset.generating_new_ids"])

/-- The dict `current_ids` after the `storage.json` phase of
`backup_current_ids`: each of the five keys bound to
`storage_data.get(key, "")`. -/
def readStorageIds (d : JsonDoc) : JsonDoc :=
  idKeys.map (fun k => (k, pyGetD d k ""))

/-- One loop step of the SQLite phase of `backup_current_ids`: record the
row value for `k` only when a row exists and `not current_ids.get(key)`. -/
def sqliteStep (rows : JsonDoc) (cur : JsonDoc) (k : String) : JsonDoc :=
  match pyGet rows k with
  | some v => if pyFalsy cur k then pySet cur k v else cur
  | none => cur

/-- The SQLite phase of `backup_current_ids` over the five keys. -/
def mergeSqliteIds (rows : JsonDoc) (cur : JsonDoc) : JsonDoc :=
  idKeys.foldl (sqliteStep rows) cur

/-- The collection part of `MachineIDResetter.backup_current_ids` (reading
`storage.json`, then the SQLite rows), returning the collected
`current_ids`, the world (the SQLite phase may create `ItemTable`, which
SQLite autocommits), and the events so far. -/
def backupCollect (env : Env) (w : World) : JsonDoc × World × List Event :=
  let s1 : JsonDoc × List Event :=
    match w.storage with
    | some d =>
      if env.storageReadOk then (readStorageIds d, [])
      else ([], [Event.printed "literal.backup_read_storage_failed"])
    | none => ([], [])
  match w.sqlite with
  | some db =>
    if env.sqliteConnectOk then
      let db1 : SqliteState := if db.hasTable then db else { hasTable := true, rows := [] }
      let tEv : List Event := if db.hasTable then [] else [Event.createdItemTable]
      (mergeSqliteIds db1.rows s1.1, { w with sqlite := some db1 }, s1.2 ++ tEv)
    else (s1.1, w, s1.2 ++ [Event.printed "literal.backup_read_sqlite_failed"])
  | none => (s1.1, w, s1.2)

/-- `MachineIDResetter.backup_current_ids`: collect the current identifier
values from `storage.json` (taking precedence) and the SQLite rows, then
write them to a timestamped `storage.json.bak.*` file if any were found.
Returns `False` when nothing was collected or when the backup write raises. -/
def backup_current_ids (env : Env) (w : World) : Bool × World × List Event :=
  let ev0 : List Event := [Event.printed "reset.backing_up_current"]
  let c := backupCollect env w
  if c.1 = [] then
    (false, c.2.1, ev0 ++ c.2.2 ++ [Event.printed "literal.no_ids_to_backup"])
  else if env.backupWriteOk then
    (true, { c.2.1 with backupFiles := c.2.1.backupFiles ++ [c.1] },
     ev0 ++ c.2.2 ++ [Event.wroteBackupFile c.1, Event.printed "literal.backup_saved"])
  else
    (false, c.2.1, ev0 ++ c.2.2 ++ [Event.printed "literal.backup_error"])

/-- `MachineIDResetter.update_current_file`: mutate `storage.json`.  Absent
file: error message, `False`.  Read (or parse) failure: `False`.  Then a
timestamped copy of the file is made; only if that copy succeeds is the
merged document written back.  A failed write leaves the file truncated
(the file is opened with mode `w` before `json.dump`), modelled as the
empty document. -/
def update_current_file (env : Env) (w : World) (ids : JsonDoc) : Bool × World × List Event :=
  match w.storage with
  | none => (false, w, [Event.printed "reset.current_file_not_found"])
  | some d =>
    if ¬ env.storageReadOk then (false, w, [Event.printed "reset.update_failed"])
    else if ¬ env.storageCopyOk then (false, w, [Event.printed "reset.update_failed"])
    else
      let w1 := { w with storageBakCopies := w.storageBakCopies ++ [d] }
      let ev1 : List Event :=
        [Event.copiedStorageBackup d, Event.printed "reset.current_backup_created"]
      if env.storageWriteOk then
        (true, { w1 with storage := some (pyUpdate d ids) },
         ev1 ++ [Event.wroteStorage (pyUpdate d ids), Event.printed "reset.storage_updated"])
      else
        (false, { w1 with storage := some [] },
         ev1 ++ [Event.printed "reset.update_failed"])

/-- The per-pair `INSERT OR REPLACE` events of `update_sqlite_db`. -/
def upsertEvents (ids : JsonDoc) : List Event :=
  ids.foldr
    (fun p acc => Event.upsertedRow p.1 p.2 :: Event.printed "reset.updating_pair" :: acc)
    []

/-- `MachineIDResetter.update_sqlite_db`: absent file is an error (`False`).
Otherwise `ItemTable` is created if missing and each identifier pair is
upserted.  `sqliteConnectOk` models success of all SQLite operations of
this call; on failure nothing is mutated and `False` is returned. -/
def update_sqlite_db (env : Env) (w : World) (ids : JsonDoc) : Bool × World × List Event :=
  match w.sqlite with
  | none => (false, w, [Event.printed "reset.sqlite_not_found"])
  | some db =>
    let ev0 : List Event := [Event.printed "reset.updating_sqlite"]
    if env.sqliteConnectOk then
      let db1 : SqliteState := if db.hasTable then db else { hasTable := true, rows := [] }
      let tEv : List Event := if db.hasTable then [] else [Event.createdItemTable]
      (true, { w with sqlite := some { hasTable := true, rows := pyUpdate db1.rows ids } },
       ev0 ++ tEv ++ upsertEvents ids ++ [Event.printed "reset.sqlite_updated"])
    else
      (false, w, ev0 ++ [Event.printed "reset.sqlite_update_failed"])

/-- `MachineIDResetter.update_machine_id_file`: ensure the parent directory,
back up an existing `machineId` file — a failed backup copy is only warned
about and the overwrite still proceeds — then write the new device id.  A
failed write leaves the file truncated (mode `w`), modelled as `""`. -/
def update_machine_id_file (env : Env) (w : World) (devId : String) : Bool × World × List Event :=
  if ¬ env.machineIdMkdirOk then (false, w, [Event.printed "reset.machine_id_update_failed"])
  else
    let s1 : World × List Event :=
      match w.machineId with
      | some old =>
        if env.machineIdCopyOk then
          ({ w with machineIdBakCopies := w.machineIdBakCopies ++ [old] },
           [Event.copiedMachineIdBackup old, Event.printed "reset.machine_id_backup_created"])
        else (w, [Event.printed "reset.backup_creation_failed"])
      | none => (w, [])
    if env.machineIdWriteOk then
      (true, { s1.1 with machineId := some devId },
       s1.2 ++ [Event.wroteMachineId devId, Event.printed "reset.machine_id_updated"])
    else
      (false, { s1.1 with machineId := some "" },
       s1.2 ++ [Event.printed "reset.machine_id_update_failed"])

/-- `MachineIDResetter._update_windows_system_ids`: write `MachineGuid`
(from `telemetry.devDeviceId`) and the SQMClient `MachineId` (from
`telemetry.sqmId`) when non-empty; permission and missing-key errors are
printed and swallowed. -/
def update_windows_system_ids (env : Env) (w : World) (ids : JsonDoc) : World × List Event :=
  let guid := pyGetD ids "telemetry.devDeviceId" ""
  let s1 : World × List Event :=
    if guid ≠ "" then
      if env.regCryptoOpenOk then
        ({ w with regMachineGuid := some guid },
         [Event.wroteRegMachineGuid guid, Event.printed "reset.windows_machine_guid_updated"])
      else (w, [Event.printed "reset.permission_denied"])
    else (w, [])
  let sqm := pyGetD ids "telemetry.sqmId" ""
  if sqm ≠ "" then
    if ¬ env.regSqmKeyExists then
      (s1.1, s1.2 ++ [Event.printed "reset.sqm_client_key_not_found"])
    else if env.regSqmOpenOk then
      ({ s1.1 with regSqmMachineId := some sqm },
       s1.2 ++ [Event.wroteRegSqmMachineId sqm, Event.printed "reset.windows_machine_id_updated"])
    else (s1.1, s1.2 ++ [Event.printed "reset.permission_denied"])
  else s1

/-- `MachineIDResetter._update_macos_system_ids`: replace the platform UUID
via `plutil` when the plist exists and `telemetry.macMachineId` is
non-empty. -/
def update_macos_system_ids (env : Env) (w : World) (ids : JsonDoc) : World × List Event :=
  if env.plistExists then
    let macId := pyGetD ids "telemetry.macMachineId" ""
    if macId ≠ "" then
      if env.plutilOk then
        ({ w with platformUuid := some macId },
         [Event.wrotePlatformUuid macId, Event.printed "reset.macos_platform_uuid_updated"])
      else (w, [Event.printed "reset.failed_to_execute_plutil_command"])
    else (w, [])
  else (w, [])

/-- `MachineIDResetter.update_system_ids`: dispatch on the platform; on
Linux nothing is written.  All error paths of the platform helpers are
swallowed, so this returns `True`. -/
def update_system_ids (env : Env) (w : World) (ids : JsonDoc) : Bool × World × List Event :=
  let ev0 : List Event := [Event.printed "reset.updating_system_ids"]
  match env.platform with
  | Platform.win32 =>
    let s := update_windows_system_ids env w ids
    (true, s.1, ev0 ++ s.2)
  | Platform.darwin =>
    let s := update_macos_system_ids env w ids
    (true, s.1, ev0 ++ s.2)
  | Platform.linuxOs => (true, w, ev0)

/-- Outcome of one `subprocess.run` invocation: normal completion with a
return code and captured stdout, a timeout, or a missing tool. -/
inductive Subproc where
  | ok (rc : Nat) (stdout : String)
  | timeout
  | toolMissing
  deriving DecidableEq, Repr

/-- Environment of `check_cursor_running`: the platform and the outcome of
each process-listing tool it may invoke. -/
structure ProcEnv where
  platform : Platform
  tasklist : Subproc
  wmic : Subproc
  pgrep : Subproc
  deriving DecidableEq, Repr

/-- Python `needle in hay` on strings. -/
def containsSub (hay needle : String) : Bool :=
  hay.data.tails.any (fun t => needle.data.isPrefixOf t)

/-- Python `s.strip(chr(34))`: drop double quotes from both ends. -/
def stripQuote (s : String) : String :=
  String.mk (((s.data.dropWhile (fun c => c = '"')).reverse.dropWhile
    (fun c => c = '"')).reverse)

/-- The PID parsing of the pgrep branches: `int(pids[0])`, with a
`ValueError` yielding `(True, None)`.  Python `int` is modelled on the
decimal digit strings pgrep emits. -/
def parsePgrepPid (out : String) : Option Bool × Option Nat :=
  let pids := (out.trim.splitOn "\n")
  match (pids.getD 0 "").toNat? with
  | some n => (some true, some n)
  | none => (some true, none)

/-- `MachineIDResetter.check_cursor_running`: platform-specific process
lookup.  Every tool failure is caught by the inner handlers, which return
`(False, None)`; the outer handler returning `(None, None)` is unreachable
because the inner `except` clauses already catch every `Exception`. -/
def check_cursor_running (e : ProcEnv) : Option Bool × Option Nat :=
  match e.platform with
  | Platform.win32 =>
    match e.tasklist with
    | Subproc.ok _ out =>
      if containsSub out "Cursor.exe" then
        let lines := out.trim.splitOn "\n"
        if lines.length > 1 then
          let parts := (lines.getD 1 "").splitOn "\",\""
          if parts.length > 1 then
            match (stripQuote (parts.getD 1 "")).toNat? with
            | some n => (some true, some n)
            | none => (some true, none)
          else (some true, none)
        else (some true, none)
      else
        (some false, none)
    | _ =>
      match e.wmic with
      | Subproc.ok _ out =>
        if containsSub out "ProcessId" ∧ out.trim ≠ "ProcessId" then (some true, none)
        else (some false, none)
      | _ => (some false, none)
  | _ =>
    match e.pgrep with
    | Subproc.ok rc out =>
      if rc = 0 ∧ out.trim ≠ "" then parsePgrepPid out
      else (some false, none)
    | _ => (some false, none)

/-- `MachineIDResetter.reset_machine_ids` from the Cursor-files existence
check onwards: backup, generate, preview + confirm, then the four backend
mutators, aborting after a canonical (`storage.json`) failure. -/
def reset_after_guard (env : Env) (w : World) : Bool × World × List Event :=
  if w.storage = none ∧ w.sqlite = none ∧ w.machineId = none then
    (false, w, [Event.printed "literal.files_not_found"])
  else
    let b := backup_current_ids env w
    let g := generate_new_ids env.rand
    let evA : List Event :=
      Event.calledBackupCurrentIds :: b.2.2 ++ Event.calledGenerateIds :: g.2 ++
        [Event.printed "literal.show_new_ids", Event.prompted 2]
    if pyLower env.answerConfirm ≠ "y" then
      (false, b.2.1, evA ++ [Event.printed "reset.operation_cancelled"])
    else
      let c := update_current_file env b.2.1 g.1
      let evB : List Event := evA ++ Event.calledUpdateCurrentFile :: c.2.2
      if c.1 = false then (false, c.2.1, evB)
      else
        let s := update_sqlite_db env c.2.1 g.1
        let m := update_machine_id_file env s.2.1 (pyGetD g.1 "telemetry.devDeviceId" "")
        let y := update_system_ids env m.2.1 g.1
        (true, y.2.1,
         evB ++ Event.calledUpdateSqliteDb :: s.2.2 ++
           Event.calledUpdateMachineIdFile :: m.2.2 ++
           Event.calledUpdateSystemIds :: y.2.2 ++
           [Event.printed "reset.success", Event.printed "literal.restart_note"])

/-- `MachineIDResetter.reset_machine_ids`: the check-running guard (the
result of `check_cursor_running` is `procResult`; only the literal `True`
triggers the warning and the first prompt), then `reset_after_guard`.
`procResult` is an explicit argument so that the guard can be studied for
every possible check outcome. -/
def reset_machine_ids (procResult : Option Bool × Option Nat) (env : Env) (w : World) :
    Bool × World × List Event :=
  let ev0 : List Event := [Event.printed "reset.starting"]
  if procResult.1 = some true then
    let ev1 : List Event :=
      ev0 ++ [Event.printed "literal.cursor_running_warning", Event.prompted 1]
    if pyLower env.answerRunning ≠ "y" then
      (false, w, ev1 ++ [Event.printed "reset.operation_cancelled"])
    else
      let r := reset_after_guard env w
      (r.1, r.2.1, ev1 ++ r.2.2)
  else
    let r := reset_after_guard env w
    (r.1, r.2.1, ev0 ++ r.2.2)

/-- Worlds whose SQLite state is meaningful: a database without `ItemTable`
holds no rows. -/
def WfWorld (w : World) : Prop :=
  ∀ db : SqliteState, w.sqlite = some db → db.hasTable = false → db.rows = []

/-- A world with none of the script's files present. -/
def emptyWorld : World :=
  { storage := none, sqlite := none, machineId := none, backupFiles := [],
    storageBakCopies := [], machineIdBakCopies := [], regMachineGuid := none,
    regSqmMachineId := none, platformUuid := none }

/-- An environment in which every I/O operation succeeds, the operator
answers `y` to both prompts, and all random draws are `0`. -/
def baseEnv : Env :=
  { platform := Platform.linuxOs, rand := fun _ => 0,
    procResult := (some false, none), answerRunning := "y", answerConfirm := "y",
    storageReadOk := true, storageCopyOk := true, storageWriteOk := true,
    backupWriteOk := true, sqliteConnectOk := true, machineIdMkdirOk := true,
    machineIdCopyOk := true, machineIdWriteOk := true, regCryptoOpenOk := true,
    regSqmKeyExists := true, regSqmOpenOk := true, plistExists := true,
    plutilOk := true }

/-- The three secondary-backend mutator calls of the orchestrator. -/
def isSecondaryCall : Event → Bool
  | Event.calledUpdateSqliteDb => true
  | Event.calledUpdateMachineIdFile => true
  | Event.calledUpdateSystemIds => true
  | _ => false

/-- A world in which only the SQLite store exists, holding one row. -/
def onlySqliteWorld : World :=
  { emptyWorld with sqlite := some { hasTable := true, rows := [("telemetry.devDeviceId", "old")] } }

/-- A world in which only the SQLite database exists and its `ItemTable`
has not been created yet. -/
def noTableWorld : World :=
  { emptyWorld with sqlite := some { hasTable := false, rows := [] } }

/-- A Linux process-check environment in which `pgrep` times out. -/
def linuxTimeoutProcEnv : ProcEnv :=
  { platform := Platform.linuxOs, tasklist := Subproc.timeout,
    wmic := Subproc.timeout, pgrep := Subproc.timeout }

/-- A Windows process-check environment in which `tasklist` times out and
`wmic` is missing. -/
def winTimeoutProcEnv : ProcEnv :=
  { platform := Platform.win32, tasklist := Subproc.timeout,
    wmic := Subproc.toolMissing, pgrep := Subproc.timeout }

/-- A SQLite fixture holding rows for two of the five keys. -/
def sqliteFixture : SqliteState :=
  { hasTable := true,
    rows := [("telemetry.devDeviceId", "s1"), ("telemetry.macMachineId", "s2")] }

/-- A world holding both a JSON store and the SQLite fixture. -/
def jsonSqliteWorld : World :=
  { emptyWorld with
      storage := some [("telemetry.devDeviceId", "j1")]
      sqlite := some sqliteFixture }

/-- The all-success environment on the Windows platform. -/
def winEnv : Env := { baseEnv with platform := Platform.win32 }

theorem find?_append (l₁ l₂ : List (String × String)) (p : String × String → Bool) :
    (l₁ ++ l₂).find? p =
      match l₁.find? p with
      | some x => some x
      | none => l₂.find? p := by
  induction l₁ with
  | nil => simp
  | cons q t ih =>
    by_cases hq : p q
    · simp [List.find?, hq]
    · simp only [List.cons_append, List.find?, hq]
      simpa [hq] using ih

theorem find?_map_set_of_any (d : JsonDoc) (k v : String)
    (h : d.any (fun p => p.1 == k) = true) :
    (d.map (fun p => if p.1 == k then (k, v) else p)).find? (fun p => p.1 == k)
      = some (k, v) := by
  induction d with
  | nil => simp at h
  | cons q t ih =>
    by_cases hq : (q.1 == k) = true
    · simp [List.find?, hq]
    · rw [Bool.not_eq_true] at hq
      simp only [List.any_cons, hq, Bool.false_or] at h
      simp only [List.map_cons, List.find?, hq]
      simpa [hq] using ih h

theorem pyGet_pySet_self (d : JsonDoc) (k v : String) :
    pyGet (pySet d k v) k = some v := by
  unfold pySet pyGet
  by_cases h : d.any (fun p => p.1 == k) = true
  · rw [if_pos h, find?_map_set_of_any d k v h]
    rfl
  · rw [if_neg h, find?_append]
    have hnone : d.find? (fun p => p.1 == k) = none := by
      rw [List.find?_eq_none]
      intro p hp
      by_contra hc
      exact h (List.any_eq_true.mpr ⟨p, hp, by simpa using hc⟩)
    rw [hnone]
    simp [List.find?]

theorem find?_map_set_ne (d : JsonDoc) (k' k v : String) (h : k' ≠ k) :
    (d.map (fun p => if p.1 == k' then (k', v) else p)).find? (fun p => p.1 == k)
      = d.find? (fun p => p.1 == k) := by
  induction d with
  | nil => simp
  | cons q t ih =>
    by_cases hq : (q.1 == k') = true
    · have hqk : (q.1 == k) = false := by
        have hq1 : q.1 = k' := by simpa using hq
        simp [hq1, h]
      have hk'k : (k' == k) = false := by simp [h]
      simp only [List.map_cons, hq, if_true, List.find?, hk'k, hqk]
      exact ih
    · rw [Bool.not_eq_true] at hq
      by_cases hqk : (q.1 == k) = true
      · simp [List.find?, hq, hqk]
      · rw [Bool.not_eq_true] at hqk
        simp only [List.map_cons, List.find?, hq, hqk]
        simpa [hq, hqk] using ih

theorem pyGet_pySet_ne (d : JsonDoc) (k' k v : String) (h : k' ≠ k) :
    pyGet (pySet d k' v) k = pyGet d k := by
  unfold pySet pyGet
  by_cases ha : d.any (fun p => p.1 == k') = true
  · rw [if_pos ha, find?_map_set_ne d k' k v h]
  · rw [if_neg ha, find?_append]
    cases hd : d.find? (fun p => p.1 == k) with
    | some x => simp
    | none => simp [List.find?, show (k' == k) = false by simp [h]]

theorem pyGet_pyUpdate_not_mem (d : JsonDoc) (u : JsonDoc) (k : String)
    (h : ∀ p ∈ u, p.1 ≠ k) : pyGet (pyUpdate d u) k = pyGet d k := by
  induction u generalizing d with
  | nil => rfl
  | cons q t ih =>
    have hq : q.1 ≠ k := h q (by simp)
    have ht : ∀ p ∈ t, p.1 ≠ k := fun p hp => h p (by simp [hp])
    calc pyGet (pyUpdate d (q :: t)) k
        = pyGet (pyUpdate (pySet d q.1 q.2) t) k := rfl
      _ = pyGet (pySet d q.1 q.2) k := ih (pySet d q.1 q.2) ht
      _ = pyGet d k := pyGet_pySet_ne d q.1 k q.2 hq

theorem toHexList_length (w n : Nat) : (toHexList w n).length = w := by
  induction w generalizing n with
  | zero => rfl
  | succ w ih => simp [toHexList, ih]

theorem hexDigit_mem (n : Nat) : hexDigit n ∈ hexChars := by
  have h : n % 16 < hexChars.length := Nat.mod_lt n (by decide)
  rw [hexDigit, List.getD_eq_getElem hexChars '0' h]
  exact List.getElem_mem h

theorem toHexList_mem (w n : Nat) : ∀ c ∈ toHexList w n, c ∈ hexChars := by
  induction w generalizing n with
  | zero => intro c hc; simp [toHexList] at hc
  | succ w ih =>
    intro c hc
    simp only [toHexList, List.mem_append, List.mem_singleton] at hc
    rcases hc with hc | hc
    · exact ih (n / 16) c hc
    · rw [hc]; exact hexDigit_mem (n % 16)

theorem hexDigit_inj_fin : ∀ a b : Fin 16, hexDigit a.val = hexDigit b.val → a = b := by
  decide

theorem toHexList_mod (w n : Nat) : toHexList w n = toHexList w (n % 16 ^ w) := by
  induction w generalizing n with
  | zero => rfl
  | succ w ih =>
    simp only [toHexList]
    have hdiv : n % 16 ^ (w + 1) / 16 % 16 ^ w = n / 16 % 16 ^ w := by
      rw [show (16 : Nat) ^ (w + 1) = 16 * 16 ^ w by ring,
        Nat.mod_mul_right_div_self, Nat.mod_mod_of_dvd _ dvd_rfl]
    have hmod : n % 16 ^ (w + 1) % 16 = n % 16 :=
      Nat.mod_mod_of_dvd n (dvd_pow_self 16 (Nat.succ_ne_zero w))
    rw [hmod, ih (n / 16), ih (n % 16 ^ (w + 1) / 16), hdiv]

theorem toHexList_inj (w : Nat) : ∀ n₁ n₂ : Nat, n₁ < 16 ^ w → n₂ < 16 ^ w →
    toHexList w n₁ = toHexList w n₂ → n₁ = n₂ := by
  induction w with
  | zero => intro n₁ n₂ h1 h2 _; simp [pow_zero, Nat.lt_one_iff] at h1 h2; omega
  | succ w ih =>
    intro n₁ n₂ h1 h2 h
    simp only [toHexList] at h
    have hlen : (toHexList w (n₁ / 16)).length = (toHexList w (n₂ / 16)).length := by
      rw [toHexList_length, toHexList_length]
    obtain ⟨hpre, hdig⟩ := List.append_inj h hlen
    have hdigit : hexDigit (n₁ % 16) = hexDigit (n₂ % 16) := by
      simpa using hdig
    have hm1 : n₁ % 16 < 16 := Nat.mod_lt n₁ (by decide)
    have hm2 : n₂ % 16 < 16 := Nat.mod_lt n₂ (by decide)
    have hmod : n₁ % 16 = n₂ % 16 := by
      have := hexDigit_inj_fin ⟨n₁ % 16, hm1⟩ ⟨n₂ % 16, hm2⟩ hdigit
      simpa [Fin.mk.injEq] using this
    have hd1 : n₁ / 16 < 16 ^ w := by
      rw [Nat.div_lt_iff_lt_mul (by decide : (0:Nat) < 16)]
      calc n₁ < 16 ^ (w + 1) := h1
        _ = 16 ^ w * 16 := by ring
    have hd2 : n₂ / 16 < 16 ^ w := by
      rw [Nat.div_lt_iff_lt_mul (by decide : (0:Nat) < 16)]
      calc n₂ < 16 ^ (w + 1) := h2
        _ = 16 ^ w * 16 := by ring
    have hdiv : n₁ / 16 = n₂ / 16 := ih (n₁ / 16) (n₂ / 16) hd1 hd2 hpre
    omega

theorem uuidStr_data (m : Nat) :
    (uuidStr m).data =
      toHexList 8 (m / 2 ^ 96) ++ '-' ::
        (toHexList 4 (m / 2 ^ 80) ++ '-' ::
          (toHexList 4 (m / 2 ^ 64) ++ '-' ::
            (toHexList 4 (m / 2 ^ 48) ++ '-' :: toHexList 12 m))) := by
  show toHexList 8 (m / 2 ^ 96) ++ ['-'] ++ toHexList 4 (m / 2 ^ 80) ++ ['-'] ++
      toHexList 4 (m / 2 ^ 64) ++ ['-'] ++ toHexList 4 (m / 2 ^ 48) ++ ['-'] ++
      toHexList 12 m = _
  simp [List.append_assoc]

theorem uuidStr_inj (m₁ m₂ : Nat) (h1 : m₁ < 2 ^ 128) (h2 : m₂ < 2 ^ 128)
    (h : uuidStr m₁ = uuidStr m₂) : m₁ = m₂ := by
  have hd : (uuidStr m₁).data = (uuidStr m₂).data := congrArg String.data h
  rw [uuidStr_data, uuidStr_data] at hd
  have e1len : (toHexList 8 (m₁ / 2 ^ 96)).length = (toHexList 8 (m₂ / 2 ^ 96)).length := by
    rw [toHexList_length, toHexList_length]
  obtain ⟨e1, hd⟩ := List.append_inj hd e1len
  obtain hd := List.cons_injective.eq_iff.mp hd
  have e2len : (toHexList 4 (m₁ / 2 ^ 80)).length = (toHexList 4 (m₂ / 2 ^ 80)).length := by
    rw [toHexList_length, toHexList_length]
  obtain ⟨e2, hd⟩ := List.append_inj hd e2len
  obtain hd := List.cons_injective.eq_iff.mp hd
  have e3len : (toHexList 4 (m₁ / 2 ^ 64)).length = (toHexList 4 (m₂ / 2 ^ 64)).length := by
    rw [toHexList_length, toHexList_length]
  obtain ⟨e3, hd⟩ := List.append_inj hd e3len
  obtain hd := List.cons_injective.eq_iff.mp hd
  have e4len : (toHexList 4 (m₁ / 2 ^ 48)).length = (toHexList 4 (m₂ / 2 ^ 48)).length := by
    rw [toHexList_length, toHexList_length]
  obtain ⟨e4, hd⟩ := List.append_inj hd e4len
  obtain e5 := List.cons_injective.eq_iff.mp hd
  have hb1 : m₁ / 2 ^ 96 < 16 ^ 8 := by
    rw [Nat.div_lt_iff_lt_mul (by positivity)]
    calc m₁ < 2 ^ 128 := h1
      _ ≤ 16 ^ 8 * 2 ^ 96 := by norm_num
  have hb2 : m₂ / 2 ^ 96 < 16 ^ 8 := by
    rw [Nat.div_lt_iff_lt_mul (by positivity)]
    calc m₂ < 2 ^ 128 := h2
      _ ≤ 16 ^ 8 * 2 ^ 96 := by norm_num
  have q1 : m₁ / 2 ^ 96 = m₂ / 2 ^ 96 := toHexList_inj 8 _ _ hb1 hb2 e1
  rw [toHexList_mod 4 (m₁ / 2 ^ 80), toHexList_mod 4 (m₂ / 2 ^ 80)] at e2
  have q2 : m₁ / 2 ^ 80 % 16 ^ 4 = m₂ / 2 ^ 80 % 16 ^ 4 :=
    toHexList_inj 4 _ _ (Nat.mod_lt _ (by positivity)) (Nat.mod_lt _ (by positivity)) e2
  rw [toHexList_mod 4 (m₁ / 2 ^ 64), toHexList_mod 4 (m₂ / 2 ^ 64)] at e3
  have q3 : m₁ / 2 ^ 64 % 16 ^ 4 = m₂ / 2 ^ 64 % 16 ^ 4 :=
    toHexList_inj 4 _ _ (Nat.mod_lt _ (by positivity)) (Nat.mod_lt _ (by positivity)) e3
  rw [toHexList_mod 4 (m₁ / 2 ^ 48), toHexList_mod 4 (m₂ / 2 ^ 48)] at e4
  have q4 : m₁ / 2 ^ 48 % 16 ^ 4 = m₂ / 2 ^ 48 % 16 ^ 4 :=
    toHexList_inj 4 _ _ (Nat.mod_lt _ (by positivity)) (Nat.mod_lt _ (by positivity)) e4
  rw [toHexList_mod 12 m₁, toHexList_mod 12 m₂] at e5
  have q5 : m₁ % 16 ^ 12 = m₂ % 16 ^ 12 :=
    toHexList_inj 12 _ _ (Nat.mod_lt _ (by positivity)) (Nat.mod_lt _ (by positivity)) e5
  norm_num at q1 q2 q3 q4 q5
  omega

theorem uuid4Nat_lt (r : Nat) : uuid4Nat r < 2 ^ 128 := by
  have h0 : r % 2 ^ 128 < 2 ^ 128 := Nat.mod_lt r (by positivity)
  show (r % 2 ^ 128) / 2 ^ 80 * 2 ^ 80
      + (2 ^ 14 + ((r % 2 ^ 128) / 2 ^ 64) % 2 ^ 12) * 2 ^ 64
      + (2 ^ 7 + ((r % 2 ^ 128) / 2 ^ 56) % 2 ^ 6) * 2 ^ 56
      + (r % 2 ^ 128) % 2 ^ 56 < 2 ^ 128
  omega

theorem uuid4_inj (r₁ r₂ : Nat) (h : uuid4Nat r₁ ≠ uuid4Nat r₂) :
    uuid4 r₁ ≠ uuid4 r₂ := by
  intro hc
  exact h (uuidStr_inj (uuid4Nat r₁) (uuid4Nat r₂) (uuid4Nat_lt r₁) (uuid4Nat_lt r₂) hc)

theorem uuidStr_format (m : Nat) : IsUuidFormat (uuidStr m) := by
  refine ⟨toHexList 8 (m / 2 ^ 96), toHexList 4 (m / 2 ^ 80), toHexList 4 (m / 2 ^ 64),
    toHexList 4 (m / 2 ^ 48), toHexList 12 m, uuidStr_data m,
    toHexList_length 8 _, toHexList_length 4 _, toHexList_length 4 _,
    toHexList_length 4 _, toHexList_length 12 _, ?_⟩
  rintro c (hc | hc | hc | hc | hc)
  · exact toHexList_mem 8 _ c hc
  · exact toHexList_mem 4 _ c hc
  · exact toHexList_mem 4 _ c hc
  · exact toHexList_mem 4 _ c hc
  · exact toHexList_mem 12 _ c hc

theorem uuidStr_length (m : Nat) : (uuidStr m).length = 36 := by
  show (uuidStr m).data.length = 36
  rw [uuidStr_data]
  simp [toHexList_length]

theorem uuid4_length (r : Nat) : (uuid4 r).length = 36 := uuidStr_length (uuid4Nat r)

theorem uuid4_ne_empty (r : Nat) : uuid4 r ≠ "" := by
  intro h
  have hl := congrArg String.length h
  rw [uuid4_length] at hl
  simp [String.length] at hl

theorem gen_fst_mem (r : Fin 5 → Nat) (p : String × String)
    (hp : p ∈ (generate_new_ids r).1) : p.1 ∈ idKeys := by
  simp only [generate_new_ids, List.mem_cons, List.mem_singleton] at hp
  rcases hp with h | h | h | h | h | h <;> first
    | (subst h; simp [idKeys])
    | simp at h

theorem pyUpdate_gen_eq (d : JsonDoc) (r : Fin 5 → Nat) :
    pyUpdate d (generate_new_ids r).1 =
      pySet (pySet (pySet (pySet (pySet d "telemetry.devDeviceId" (uuid4 (r 0)))
        "telemetry.macMachineId" (uuid4 (r 1))) "telemetry.machineId" (uuid4 (r 2)))
        "telemetry.sqmId" (uuid4 (r 3))) "storage.serviceMachineId" (uuid4 (r 4)) := rfl

theorem pyGet_pyUpdate_gen (d : JsonDoc) (r : Fin 5 → Nat) :
    pyGet (pyUpdate d (generate_new_ids r).1) "telemetry.devDeviceId" = some (uuid4 (r 0)) ∧
    pyGet (pyUpdate d (generate_new_ids r).1) "telemetry.macMachineId" = some (uuid4 (r 1)) ∧
    pyGet (pyUpdate d (generate_new_ids r).1) "telemetry.machineId" = some (uuid4 (r 2)) ∧
    pyGet (pyUpdate d (generate_new_ids r).1) "telemetry.sqmId" = some (uuid4 (r 3)) ∧
    pyGet (pyUpdate d (generate_new_ids r).1) "storage.serviceMachineId" = some (uuid4 (r 4)) := by
  rw [pyUpdate_gen_eq]
  refine ⟨?_, ?_, ?_, ?_, ?_⟩
  · rw [pyGet_pySet_ne _ _ _ _ (by decide), pyGet_pySet_ne _ _ _ _ (by decide),
      pyGet_pySet_ne _ _ _ _ (by decide), pyGet_pySet_ne _ _ _ _ (by decide),
      pyGet_pySet_self]
  · rw [pyGet_pySet_ne _ _ _ _ (by decide), pyGet_pySet_ne _ _ _ _ (by decide),
      pyGet_pySet_ne _ _ _ _ (by decide), pyGet_pySet_self]
  · rw [pyGet_pySet_ne _ _ _ _ (by decide), pyGet_pySet_ne _ _ _ _ (by decide),
      pyGet_pySet_self]
  · rw [pyGet_pySet_ne _ _ _ _ (by decide), pyGet_pySet_self]
  · rw [pyGet_pySet_self]

/-- C4: for every existing JSON store document, a successful canonical apply
(`update_current_file`) returns `True` and writes back `d.update(new_ids)`:
every key outside the five identifier keys keeps its original value, and
each of the five identifier keys is bound to the corresponding freshly
generated UUID string. -/
theorem canonical_apply_frame (env : Env) (w : World) (d : JsonDoc) (r : Fin 5 → Nat)
    (hs : w.storage = some d) (h1 : env.storageReadOk = true)
    (h2 : env.storageCopyOk = true) (h3 : env.storageWriteOk = true) :
    (update_current_file env w (generate_new_ids r).1).1 = true ∧
    (update_current_file env w (generate_new_ids r).1).2.1.storage
      = some (pyUpdate d (generate_new_ids r).1) ∧
    (∀ k, k ∉ idKeys → pyGet (pyUpdate d (generate_new_ids r).1) k = pyGet d k) ∧
    pyGet (pyUpdate d (generate_new_ids r).1) "telemetry.devDeviceId" = some (uuid4 (r 0)) ∧
    pyGet (pyUpdate d (generate_new_ids r).1) "telemetry.macMachineId" = some (uuid4 (r 1)) ∧
    pyGet (pyUpdate d (generate_new_ids r).1) "telemetry.machineId" = some (uuid4 (r 2)) ∧
    pyGet (pyUpdate d (generate_new_ids r).1) "telemetry.sqmId" = some (uuid4 (r 3)) ∧
    pyGet (pyUpdate d (generate_new_ids r).1) "storage.serviceMachineId" = some (uuid4 (r 4)) := by
  obtain ⟨v1, v2, v3, v4, v5⟩ := pyGet_pyUpdate_gen d r
  refine ⟨?_, ?_, ?_, v1, v2, v3, v4, v5⟩
  · simp [update_current_file, hs, h1, h2, h3]
  · simp [update_current_file, hs, h1, h2, h3]
  · intro k hk
    refine pyGet_pyUpdate_not_mem d _ k ?_
    intro p hp hc
    exact hk (hc ▸ gen_fst_mem r p hp)

theorem canonical_apply_frame_witness :
    ({ emptyWorld with storage := some [("unrelated.key", "x")] } : World).storage
        = some [("unrelated.key", "x")] ∧
    ((update_current_file baseEnv { emptyWorld with storage := some [("unrelated.key", "x")] }
        (generate_new_ids (fun _ => 0)).1).1 = true ∧
      (update_current_file baseEnv { emptyWorld with storage := some [("unrelated.key", "x")] }
        (generate_new_ids (fun _ => 0)).1).2.1.storage
        = some (pyUpdate [("unrelated.key", "x")] (generate_new_ids (fun _ => 0)).1) ∧
      (∀ k, k ∉ idKeys →
        pyGet (pyUpdate [("unrelated.key", "x")] (generate_new_ids (fun _ => 0)).1) k
          = pyGet [("unrelated.key", "x")] k) ∧
      pyGet (pyUpdate [("unrelated.key", "x")] (generate_new_ids (fun _ => 0)).1)
          "telemetry.devDeviceId" = some (uuid4 ((fun _ : Fin 5 => 0) 0)) ∧
      pyGet (pyUpdate [("unrelated.key", "x")] (generate_new_ids (fun _ => 0)).1)
          "telemetry.macMachineId" = some (uuid4 ((fun _ : Fin 5 => 0) 1)) ∧
      pyGet (pyUpdate [("unrelated.key", "x")] (generate_new_ids (fun _ => 0)).1)
          "telemetry.machineId" = some (uuid4 ((fun _ : Fin 5 => 0) 2)) ∧
      pyGet (pyUpdate [("unrelated.key", "x")] (generate_new_ids (fun _ => 0)).1)
          "telemetry.sqmId" = some (uuid4 ((fun _ : Fin 5 => 0) 3)) ∧
      pyGet (pyUpdate [("unrelated.key", "x")] (generate_new_ids (fun _ => 0)).1)
          "storage.serviceMachineId" = some (uuid4 ((fun _ : Fin 5 => 0) 4))) :=
  ⟨rfl, canonical_apply_frame baseEnv { emptyWorld with storage := some [("unrelated.key", "x")] }
    [("unrelated.key", "x")] (fun _ => 0) rfl rfl rfl rfl⟩

/-- C5 counterexample: `generate_new_ids` draws five independent uuid4
values; when the underlying 128-bit draws collide (here: all five draws are
`0`), the five produced values are identical, so the claim that every call
returns pairwise-distinct values is false.  Distinctness is only
probabilistic (uuid4 entropy), not guaranteed. -/
theorem generate_distinct_cex :
    ¬ List.Pairwise (fun a b => a ≠ b)
        (((generate_new_ids (fun _ => 0)).1).map Prod.snd) := by
  intro h
  simp only [generate_new_ids, List.map_cons, List.map_nil, List.pairwise_cons] at h
  exact h.1 (uuid4 0) (by simp) rfl

/-- C5 (amended): every call to `generate_new_ids` returns a complete set —
all five identifier keys are bound — and every value is a 36-character
lowercase 8-4-4-4-12 UUID string; the five values are pairwise distinct
whenever the five masked 128-bit random draws are pairwise distinct (which
holds with overwhelming probability but is not checked by the code). -/
theorem generate_new_ids_spec (r : Fin 5 → Nat)
    (h : ∀ i j : Fin 5, i ≠ j → uuid4Nat (r i) ≠ uuid4Nat (r j)) :
    (∀ k ∈ idKeys, ∃ v, pyGet (generate_new_ids r).1 k = some v) ∧
    (∀ p ∈ (generate_new_ids r).1, IsUuidFormat p.2 ∧ p.2.length = 36) ∧
    List.Pairwise (fun a b => a ≠ b) (((generate_new_ids r).1).map Prod.snd) := by
  refine ⟨?_, ?_, ?_⟩
  · intro k hk
    fin_cases hk
    · exact ⟨uuid4 (r 0), rfl⟩
    · exact ⟨uuid4 (r 1), rfl⟩
    · exact ⟨uuid4 (r 2), rfl⟩
    · exact ⟨uuid4 (r 3), rfl⟩
    · exact ⟨uuid4 (r 4), rfl⟩
  · intro p hp
    simp only [generate_new_ids, List.mem_cons, List.not_mem_nil, or_false] at hp
    rcases hp with rfl | rfl | rfl | rfl | rfl <;>
      exact ⟨uuidStr_format _, uuid4_length _⟩
  · have d01 := uuid4_inj _ _ (h 0 1 (by decide))
    have d02 := uuid4_inj _ _ (h 0 2 (by decide))
    have d03 := uuid4_inj _ _ (h 0 3 (by decide))
    have d04 := uuid4_inj _ _ (h 0 4 (by decide))
    have d12 := uuid4_inj _ _ (h 1 2 (by decide))
    have d13 := uuid4_inj _ _ (h 1 3 (by decide))
    have d14 := uuid4_inj _ _ (h 1 4 (by decide))
    have d23 := uuid4_inj _ _ (h 2 3 (by decide))
    have d24 := uuid4_inj _ _ (h 2 4 (by decide))
    have d34 := uuid4_inj _ _ (h 3 4 (by decide))
    simp only [generate_new_ids, List.map_cons, List.map_nil]
    refine List.Pairwise.cons ?_ (List.Pairwise.cons ?_ (List.Pairwise.cons ?_
      (List.Pairwise.cons ?_ (List.pairwise_singleton _ _))))
    · intro x hx
      rcases (by simpa using hx : x = uuid4 (r 1) ∨ x = uuid4 (r 2) ∨
        x = uuid4 (r 3) ∨ x = uuid4 (r 4)) with rfl | rfl | rfl | rfl
      · exact d01
      · exact d02
      · exact d03
      · exact d04
    · intro x hx
      rcases (by simpa using hx : x = uuid4 (r 2) ∨ x = uuid4 (r 3) ∨
        x = uuid4 (r 4)) with rfl | rfl | rfl
      · exact d12
      · exact d13
      · exact d14
    · intro x hx
      rcases (by simpa using hx : x = uuid4 (r 3) ∨ x = uuid4 (r 4)) with rfl | rfl
      · exact d23
      · exact d24
    · intro x hx
      rcases (by simpa using hx : x = uuid4 (r 4)) with rfl
      exact d34

theorem generate_new_ids_spec_witness :
    (∀ i j : Fin 5, i ≠ j → uuid4Nat ((fun i : Fin 5 => i.val) i)
        ≠ uuid4Nat ((fun i : Fin 5 => i.val) j)) ∧
    ((∀ k ∈ idKeys, ∃ v, pyGet (generate_new_ids (fun i : Fin 5 => i.val)).1 k = some v) ∧
      (∀ p ∈ (generate_new_ids (fun i : Fin 5 => i.val)).1, IsUuidFormat p.2 ∧ p.2.length = 36) ∧
      List.Pairwise (fun a b => a ≠ b)
        (((generate_new_ids (fun i : Fin 5 => i.val)).1).map Prod.snd)) :=
  ⟨by decide, generate_new_ids_spec (fun i : Fin 5 => i.val) (by decide)⟩

theorem backupCollect_world_cases (env : Env) (w : World) :
    ((w.sqlite = none ∨ env.sqliteConnectOk = false) ∧ (backupCollect env w).2.1 = w) ∨
    ∃ db : SqliteState, w.sqlite = some db ∧ env.sqliteConnectOk = true ∧
      (backupCollect env w).2.1 = { w with sqlite := some (if db.hasTable then db
        else { hasTable := true, rows := [] }) } := by
  unfold backupCollect
  cases hsq : w.sqlite with
  | none => left; exact ⟨Or.inl rfl, by simp [hsq]⟩
  | some db =>
    by_cases hc : env.sqliteConnectOk = true
    · right
      exact ⟨db, rfl, hc, by simp [hc]⟩
    · left
      rw [Bool.not_eq_true] at hc
      exact ⟨Or.inr hc, by simp [hc]⟩

theorem backupCollect_fields (env : Env) (w : World) :
    (backupCollect env w).2.1.storage = w.storage ∧
    (backupCollect env w).2.1.machineId = w.machineId ∧
    (backupCollect env w).2.1.regMachineGuid = w.regMachineGuid ∧
    (backupCollect env w).2.1.regSqmMachineId = w.regSqmMachineId ∧
    (backupCollect env w).2.1.platformUuid = w.platformUuid ∧
    (backupCollect env w).2.1.backupFiles = w.backupFiles := by
  rcases backupCollect_world_cases env w with ⟨_, h⟩ | ⟨db, _, _, h⟩ <;> rw [h] <;> simp

theorem backupCollect_rows (env : Env) (w : World) (hwf : WfWorld w) :
    (backupCollect env w).2.1.sqlite.map SqliteState.rows
      = w.sqlite.map SqliteState.rows := by
  rcases backupCollect_world_cases env w with ⟨_, h⟩ | ⟨db, hdb, _, h⟩
  · rw [h]
  · rw [h, hdb]
    by_cases ht : db.hasTable = true
    · simp [ht]
    · rw [Bool.not_eq_true] at ht
      simp [ht, hwf db hdb ht]

theorem backup_world_fields (env : Env) (w : World) :
    (backup_current_ids env w).2.1.storage = w.storage ∧
    (backup_current_ids env w).2.1.machineId = w.machineId ∧
    (backup_current_ids env w).2.1.regMachineGuid = w.regMachineGuid ∧
    (backup_current_ids env w).2.1.regSqmMachineId = w.regSqmMachineId ∧
    (backup_current_ids env w).2.1.platformUuid = w.platformUuid := by
  obtain ⟨f1, f2, f3, f4, f5, _⟩ := backupCollect_fields env w
  unfold backup_current_ids
  by_cases h0 : (backupCollect env w).1 = []
  · simp [h0, f1, f2, f3, f4, f5]
  · by_cases hb : env.backupWriteOk = true
    · simp [h0, hb, f1, f2, f3, f4, f5]
    · rw [Bool.not_eq_true] at hb
      simp [h0, hb, f1, f2, f3, f4, f5]

theorem backup_rows (env : Env) (w : World) (hwf : WfWorld w) :
    (backup_current_ids env w).2.1.sqlite.map SqliteState.rows
      = w.sqlite.map SqliteState.rows := by
  have hr := backupCollect_rows env w hwf
  unfold backup_current_ids
  by_cases h0 : (backupCollect env w).1 = []
  · simp [h0, hr]
  · by_cases hb : env.backupWriteOk = true
    · simp [h0, hb, hr]
    · rw [Bool.not_eq_true] at hb
      simp [h0, hb, hr]

theorem backup_sqlite_connected (env : Env) (w : World) (db : SqliteState)
    (hdb : w.sqlite = some db) (hc : env.sqliteConnectOk = true)
    (hwf : WfWorld w) :
    (backup_current_ids env w).2.1.sqlite = some { hasTable := true, rows := db.rows } := by
  have hcol : (backupCollect env w).2.1.sqlite
      = some { hasTable := true, rows := db.rows } := by
    rcases backupCollect_world_cases env w with ⟨hno, h⟩ | ⟨db2, hdb2, _, h⟩
    · rcases hno with hno | hno
      · rw [hdb] at hno; cases hno
      · rw [hc] at hno; cases hno
    · rw [hdb] at hdb2
      injection hdb2 with hh
      subst hh
      rw [h]
      by_cases ht : db.hasTable = true
      · cases db
        simp_all
      · rw [Bool.not_eq_true] at ht
        simp [ht, hwf db hdb ht]
  unfold backup_current_ids
  by_cases h0 : (backupCollect env w).1 = []
  · simp [h0, hcol]
  · by_cases hb : env.backupWriteOk = true
    · simp [h0, hb, hcol]
    · rw [Bool.not_eq_true] at hb
      simp [h0, hb, hcol]

theorem update_current_file_success (env : Env) (w : World) (d : JsonDoc) (ids : JsonDoc)
    (hs : w.storage = some d) (h1 : env.storageReadOk = true)
    (h2 : env.storageCopyOk = true) (h3 : env.storageWriteOk = true) :
    update_current_file env w ids =
      (true,
       { w with storage := some (pyUpdate d ids),
                storageBakCopies := w.storageBakCopies ++ [d] },
       [Event.copiedStorageBackup d, Event.printed "reset.current_backup_created",
        Event.wroteStorage (pyUpdate d ids), Event.printed "reset.storage_updated"]) := by
  simp [update_current_file, hs, h1, h2, h3]

theorem update_current_file_failed (env : Env) (w : World) (ids : JsonDoc)
    (hs : w.storage = none) :
    update_current_file env w ids =
      (false, w, [Event.printed "reset.current_file_not_found"]) := by
  simp [update_current_file, hs]

theorem update_current_file_read_failed (env : Env) (w : World) (d : JsonDoc) (ids : JsonDoc)
    (hs : w.storage = some d) (h1 : env.storageReadOk = false) :
    update_current_file env w ids = (false, w, [Event.printed "reset.update_failed"]) := by
  simp [update_current_file, hs, h1]

theorem update_current_file_copy_failed (env : Env) (w : World) (d : JsonDoc) (ids : JsonDoc)
    (hs : w.storage = some d) (h1 : env.storageReadOk = true)
    (h2 : env.storageCopyOk = false) :
    update_current_file env w ids = (false, w, [Event.printed "reset.update_failed"]) := by
  simp [update_current_file, hs, h1, h2]

theorem update_current_file_write_failed (env : Env) (w : World) (d : JsonDoc) (ids : JsonDoc)
    (hs : w.storage = some d) (h1 : env.storageReadOk = true)
    (h2 : env.storageCopyOk = true) (h3 : env.storageWriteOk = false) :
    update_current_file env w ids =
      (false,
       { w with storage := some [], storageBakCopies := w.storageBakCopies ++ [d] },
       [Event.copiedStorageBackup d, Event.printed "reset.current_backup_created",
        Event.printed "reset.update_failed"]) := by
  simp [update_current_file, hs, h1, h2, h3]

theorem update_current_file_true_wroteStorage (env : Env) (w : World) (ids : JsonDoc)
    (h : (update_current_file env w ids).1 = true) :
    ∃ c, Event.wroteStorage c ∈ (update_current_file env w ids).2.2 := by
  cases hs : w.storage with
  | none =>
    rw [update_current_file_failed env w ids hs] at h
    simp at h
  | some d =>
    by_cases h1 : env.storageReadOk = true
    · by_cases h2 : env.storageCopyOk = true
      · by_cases h3 : env.storageWriteOk = true
        · rw [update_current_file_success env w d ids hs h1 h2 h3]
          exact ⟨pyUpdate d ids, by simp⟩
        · rw [Bool.not_eq_true] at h3
          rw [update_current_file_write_failed env w d ids hs h1 h2 h3] at h
          simp at h
      · rw [Bool.not_eq_true] at h2
        rw [update_current_file_copy_failed env w d ids hs h1 h2] at h
        simp at h
    · rw [Bool.not_eq_true] at h1
      rw [update_current_file_read_failed env w d ids hs h1] at h
      simp at h

theorem update_sqlite_db_success (env : Env) (w : World) (db : SqliteState) (ids : JsonDoc)
    (hdb : w.sqlite = some db) (ht : db.hasTable = true) (hc : env.sqliteConnectOk = true) :
    update_sqlite_db env w ids =
      (true, { w with sqlite := some { hasTable := true, rows := pyUpdate db.rows ids } },
       Event.printed "reset.updating_sqlite" :: upsertEvents ids ++
         [Event.printed "reset.sqlite_updated"]) := by
  simp [update_sqlite_db, hdb, ht, hc]

theorem update_sqlite_db_absent (env : Env) (w : World) (ids : JsonDoc)
    (hdb : w.sqlite = none) :
    update_sqlite_db env w ids = (false, w, [Event.printed "reset.sqlite_not_found"]) := by
  simp [update_sqlite_db, hdb]

theorem update_machine_id_file_existing (env : Env) (w : World) (old devId : String)
    (hm : w.machineId = some old) (h1 : env.machineIdMkdirOk = true)
    (h2 : env.machineIdCopyOk = true) (h3 : env.machineIdWriteOk = true) :
    update_machine_id_file env w devId =
      (true,
       { w with machineId := some devId,
                machineIdBakCopies := w.machineIdBakCopies ++ [old] },
       [Event.copiedMachineIdBackup old, Event.printed "reset.machine_id_backup_created",
        Event.wroteMachineId devId, Event.printed "reset.machine_id_updated"]) := by
  simp [update_machine_id_file, hm, h1, h2, h3]

theorem update_machine_id_file_fresh (env : Env) (w : World) (devId : String)
    (hm : w.machineId = none) (h1 : env.machineIdMkdirOk = true)
    (h3 : env.machineIdWriteOk = true) :
    update_machine_id_file env w devId =
      (true, { w with machineId := some devId },
       [Event.wroteMachineId devId, Event.printed "reset.machine_id_updated"]) := by
  simp [update_machine_id_file, hm, h1, h3]

theorem update_machine_id_file_skipped_backup (env : Env) (w : World) (old devId : String)
    (hm : w.machineId = some old) (h1 : env.machineIdMkdirOk = true)
    (h2 : env.machineIdCopyOk = false) (h3 : env.machineIdWriteOk = true) :
    update_machine_id_file env w devId =
      (true, { w with machineId := some devId },
       [Event.printed "reset.backup_creation_failed",
        Event.wroteMachineId devId, Event.printed "reset.machine_id_updated"]) := by
  simp [update_machine_id_file, hm, h1, h2, h3]

theorem update_system_ids_win_success (env : Env) (w : World) (ids : JsonDoc)
    (hp : env.platform = Platform.win32)
    (hg : pyGetD ids "telemetry.devDeviceId" "" ≠ "")
    (hq : pyGetD ids "telemetry.sqmId" "" ≠ "")
    (h1 : env.regCryptoOpenOk = true) (h2 : env.regSqmKeyExists = true)
    (h3 : env.regSqmOpenOk = true) :
    update_system_ids env w ids =
      (true,
       { w with regMachineGuid := some (pyGetD ids "telemetry.devDeviceId" ""),
                regSqmMachineId := some (pyGetD ids "telemetry.sqmId" "") },
       [Event.printed "reset.updating_system_ids",
        Event.wroteRegMachineGuid (pyGetD ids "telemetry.devDeviceId" ""),
        Event.printed "reset.windows_machine_guid_updated",
        Event.wroteRegSqmMachineId (pyGetD ids "telemetry.sqmId" ""),
        Event.printed "reset.windows_machine_id_updated"]) := by
  simp [update_system_ids, update_windows_system_ids, hp, hg, hq, h1, h2, h3]

theorem backupCollect_no_secondary (env : Env) (w : World) :
    ∀ e ∈ (backupCollect env w).2.2, isSecondaryCall e = false := by
  intro e he
  unfold backupCollect at he
  rcases hsq : w.sqlite with _ | db
  · rw [hsq] at he
    rcases hst : w.storage with _ | d <;> rw [hst] at he <;>
      by_cases hr : env.storageReadOk = true <;>
      simp_all [isSecondaryCall]
  · rw [hsq] at he
    rcases hst : w.storage with _ | d <;> rw [hst] at he <;>
      by_cases hr : env.storageReadOk = true <;>
      by_cases hc : env.sqliteConnectOk = true <;>
      by_cases ht : db.hasTable = true <;>
      simp_all [isSecondaryCall] <;>
      rcases he with rfl | rfl <;> rfl

theorem backup_no_secondary (env : Env) (w : World) :
    ∀ e ∈ (backup_current_ids env w).2.2, isSecondaryCall e = false := by
  intro e he
  unfold backup_current_ids at he
  by_cases h0 : (backupCollect env w).1 = [] <;>
    by_cases hb : env.backupWriteOk = true <;>
    simp_all [isSecondaryCall] <;>
    rcases he with rfl | he | he <;>
    first
      | rfl
      | exact backupCollect_no_secondary env w e he
      | (subst he; rfl)
      | (rcases he with rfl | rfl <;> rfl)

theorem after_guard_all_absent (env : Env) (w : World)
    (h1 : w.storage = none) (h2 : w.sqlite = none) (h3 : w.machineId = none) :
    reset_after_guard env w = (false, w, [Event.printed "literal.files_not_found"]) := by
  simp [reset_after_guard, h1, h2, h3]

theorem after_guard_decline (env : Env) (w : World)
    (hne : ¬(w.storage = none ∧ w.sqlite = none ∧ w.machineId = none))
    (hc : pyLower env.answerConfirm ≠ "y") :
    reset_after_guard env w =
      (false, (backup_current_ids env w).2.1,
       Event.calledBackupCurrentIds ::
         ((backup_current_ids env w).2.2 ++
           [Event.calledGenerateIds, Event.printed "reset.generating_new_ids",
            Event.printed "literal.show_new_ids", Event.prompted 2,
            Event.printed "reset.operation_cancelled"])) := by
  simp [reset_after_guard, hne, hc, generate_new_ids]

theorem after_guard_canonical_failed (env : Env) (w : World)
    (hne : ¬(w.storage = none ∧ w.sqlite = none ∧ w.machineId = none))
    (hy : pyLower env.answerConfirm = "y")
    (hcf : (update_current_file env (backup_current_ids env w).2.1
        (generate_new_ids env.rand).1).1 = false) :
    reset_after_guard env w =
      (false,
       (update_current_file env (backup_current_ids env w).2.1
         (generate_new_ids env.rand).1).2.1,
       Event.calledBackupCurrentIds ::
         ((backup_current_ids env w).2.2 ++
           (Event.calledGenerateIds :: Event.printed "reset.generating_new_ids" ::
             Event.printed "literal.show_new_ids" :: Event.prompted 2 ::
             Event.calledUpdateCurrentFile ::
             (update_current_file env (backup_current_ids env w).2.1
               (generate_new_ids env.rand).1).2.2))) := by
  simp only [generate_new_ids] at hcf
  simp [reset_after_guard, hne, hy, hcf, generate_new_ids]

theorem after_guard_success (env : Env) (w : World)
    (hne : ¬(w.storage = none ∧ w.sqlite = none ∧ w.machineId = none))
    (hy : pyLower env.answerConfirm = "y")
    (hct : (update_current_file env (backup_current_ids env w).2.1
        (generate_new_ids env.rand).1).1 = true) :
    reset_after_guard env w =
      (true,
       (update_system_ids env
         (update_machine_id_file env
           (update_sqlite_db env
             (update_current_file env (backup_current_ids env w).2.1
               (generate_new_ids env.rand).1).2.1
             (generate_new_ids env.rand).1).2.1
           (pyGetD (generate_new_ids env.rand).1 "telemetry.devDeviceId" "")).2.1
         (generate_new_ids env.rand).1).2.1,
       Event.calledBackupCurrentIds ::
         ((backup_current_ids env w).2.2 ++
           (Event.calledGenerateIds :: Event.printed "reset.generating_new_ids" ::
             Event.printed "literal.show_new_ids" :: Event.prompted 2 ::
             Event.calledUpdateCurrentFile ::
             ((update_current_file env (backup_current_ids env w).2.1
                 (generate_new_ids env.rand).1).2.2 ++
               (Event.calledUpdateSqliteDb ::
                 ((update_sqlite_db env
                     (update_current_file env (backup_current_ids env w).2.1
                       (generate_new_ids env.rand).1).2.1
                     (generate_new_ids env.rand).1).2.2 ++
                   (Event.calledUpdateMachineIdFile ::
                     ((update_machine_id_file env
                         (update_sqlite_db env
                           (update_current_file env (backup_current_ids env w).2.1
                             (generate_new_ids env.rand).1).2.1
                           (generate_new_ids env.rand).1).2.1
                         (pyGetD (generate_new_ids env.rand).1 "telemetry.devDeviceId" "")).2.2 ++
                       (Event.calledUpdateSystemIds ::
                         ((update_system_ids env
                             (update_machine_id_file env
                               (update_sqlite_db env
                                 (update_current_file env (backup_current_ids env w).2.1
                                   (generate_new_ids env.rand).1).2.1
                                 (generate_new_ids env.rand).1).2.1
                               (pyGetD (generate_new_ids env.rand).1 "telemetry.devDeviceId" "")).2.1
                             (generate_new_ids env.rand).1).2.2 ++
                           [Event.printed "reset.success",
                            Event.printed "literal.restart_note"])))))))))) := by
  simp only [generate_new_ids] at hct
  simp [reset_after_guard, hne, hy, hct, generate_new_ids]

theorem update_current_file_no_secondary (env : Env) (w : World) (ids : JsonDoc) :
    ∀ e ∈ (update_current_file env w ids).2.2, isSecondaryCall e = false := by
  intro e he
  cases hs : w.storage with
  | none =>
    rw [update_current_file_failed env w ids hs] at he
    simp at he
    subst he
    rfl
  | some d =>
    by_cases h1 : env.storageReadOk = true
    · by_cases h2 : env.storageCopyOk = true
      · by_cases h3 : env.storageWriteOk = true
        · rw [update_current_file_success env w d ids hs h1 h2 h3] at he
          simp at he
          rcases he with rfl | rfl | rfl | rfl <;> rfl
        · rw [Bool.not_eq_true] at h3
          rw [update_current_file_write_failed env w d ids hs h1 h2 h3] at he
          simp at he
          rcases he with rfl | rfl | rfl <;> rfl
      · rw [Bool.not_eq_true] at h2
        rw [update_current_file_copy_failed env w d ids hs h1 h2] at he
        simp at he
        subst he
        rfl
    · rw [Bool.not_eq_true] at h1
      rw [update_current_file_read_failed env w d ids hs h1] at he
      simp at he
      subst he
      rfl

theorem after_guard_secondary_needs_storage (env : Env) (w : World)
    (h : (∃ e ∈ (reset_after_guard env w).2.2, isSecondaryCall e = true) ∨
        (reset_after_guard env w).1 = true) :
    ∃ c, Event.wroteStorage c ∈ (reset_after_guard env w).2.2 := by
  by_cases hall : (w.storage = none ∧ w.sqlite = none ∧ w.machineId = none)
  · obtain ⟨h1, h2, h3⟩ := hall
    rw [after_guard_all_absent env w h1 h2 h3] at h
    rcases h with ⟨e, he, hsec⟩ | hres
    · simp at he
      subst he
      simp [isSecondaryCall] at hsec
    · simp at hres
  · by_cases hy : pyLower env.answerConfirm = "y"
    · by_cases hct : (update_current_file env (backup_current_ids env w).2.1
          (generate_new_ids env.rand).1).1 = true
      · obtain ⟨c, hc⟩ := update_current_file_true_wroteStorage env _ _ hct
        rw [after_guard_success env w hall hy hct]
        refine ⟨c, ?_⟩
        simp [hc]
      · rw [Bool.not_eq_true] at hct
        rw [after_guard_canonical_failed env w hall hy hct] at h
        rcases h with ⟨e, he, hsec⟩ | hres
        · simp at he
          rcases he with rfl | he | rfl | rfl | rfl | rfl | rfl | he
          · simp [isSecondaryCall] at hsec
          · rw [backup_no_secondary env w e he] at hsec
            cases hsec
          · simp [isSecondaryCall] at hsec
          · simp [isSecondaryCall] at hsec
          · simp [isSecondaryCall] at hsec
          · simp [isSecondaryCall] at hsec
          · simp [isSecondaryCall] at hsec
          · rw [update_current_file_no_secondary env _ _ e he] at hsec
            cases hsec
        · simp at hres
    · rw [after_guard_decline env w hall hy] at h
      rcases h with ⟨e, he, hsec⟩ | hres
      · simp at he
        rcases he with rfl | he | rfl | rfl | rfl | rfl | rfl
        · simp [isSecondaryCall] at hsec
        · rw [backup_no_secondary env w e he] at hsec
          cases hsec
        · simp [isSecondaryCall] at hsec
        · simp [isSecondaryCall] at hsec
        · simp [isSecondaryCall] at hsec
        · simp [isSecondaryCall] at hsec
        · simp [isSecondaryCall] at hsec
      · simp at hres

theorem reset_top_guard_pass (pr : Option Bool × Option Nat) (env : Env) (w : World)
    (hpr : ¬ pr.1 = some true) :
    reset_machine_ids pr env w =
      ((reset_after_guard env w).1, (reset_after_guard env w).2.1,
       Event.printed "reset.starting" :: (reset_after_guard env w).2.2) := by
  simp [reset_machine_ids, hpr]

theorem reset_top_running_yes (pr : Option Bool × Option Nat) (env : Env) (w : World)
    (hpr : pr.1 = some true) (hy : pyLower env.answerRunning = "y") :
    reset_machine_ids pr env w =
      ((reset_after_guard env w).1, (reset_after_guard env w).2.1,
       Event.printed "reset.starting" :: Event.printed "literal.cursor_running_warning" ::
         Event.prompted 1 :: (reset_after_guard env w).2.2) := by
  simp [reset_machine_ids, hpr, hy]

theorem reset_top_running_decline (pr : Option Bool × Option Nat) (env : Env) (w : World)
    (hpr : pr.1 = some true) (hn : pyLower env.answerRunning ≠ "y") :
    reset_machine_ids pr env w =
      (false, w,
       [Event.printed "reset.starting", Event.printed "literal.cursor_running_warning",
        Event.prompted 1, Event.printed "reset.operation_cancelled"]) := by
  simp [reset_machine_ids, hpr, hn]

/-- C2 counterexample: a run whose canonical `storage.json` apply fails
(file absent, SQLite file present).  The complete observable outcome is the
single boolean `False` plus the listed events: no secondary mutator is
called, but also no per-backend report of any kind is produced — in
particular nothing marks the secondary backends as Skipped with reason
"canonical failure", which the claim asserts. -/
theorem canonical_failure_report_cex :
    reset_machine_ids (some false, none) baseEnv
        { emptyWorld with sqlite := some { hasTable := true, rows := [] } } =
      (false, { emptyWorld with sqlite := some { hasTable := true, rows := [] } },
       [Event.printed "reset.starting", Event.calledBackupCurrentIds,
        Event.printed "reset.backing_up_current", Event.printed "literal.no_ids_to_backup",
        Event.calledGenerateIds, Event.printed "reset.generating_new_ids",
        Event.printed "literal.show_new_ids", Event.prompted 2,
        Event.calledUpdateCurrentFile, Event.printed "reset.current_file_not_found"]) ∧
    (∀ e ∈ (reset_machine_ids (some false, none) baseEnv
        { emptyWorld with sqlite := some { hasTable := true, rows := [] } }).2.2,
      isSecondaryCall e = false) := by
  constructor
  · decide
  · decide

/-- C2 (amended): if the canonical JSON-store apply fails, the run stops
with `False` and no secondary backend mutator is ever invoked — a
secondary-mutator call, or an overall `True` result, can occur only in runs
in which `storage.json` was actually rewritten.  No per-backend report is
produced: the outcome of a run is the boolean and the printed messages
alone. -/
theorem canonical_failure_blocks_secondaries (pr : Option Bool × Option Nat)
    (env : Env) (w : World)
    (h : (∃ e ∈ (reset_machine_ids pr env w).2.2, isSecondaryCall e = true) ∨
        (reset_machine_ids pr env w).1 = true) :
    ∃ c, Event.wroteStorage c ∈ (reset_machine_ids pr env w).2.2 := by
  by_cases hpr : pr.1 = some true
  · by_cases hy : pyLower env.answerRunning = "y"
    · rw [reset_top_running_yes pr env w hpr hy] at h ⊢
      have h2 : (∃ e ∈ (reset_after_guard env w).2.2, isSecondaryCall e = true) ∨
          (reset_after_guard env w).1 = true := by
        rcases h with ⟨e, he, hs⟩ | hres
        · simp at he
          rcases he with rfl | rfl | rfl | he
          · simp [isSecondaryCall] at hs
          · simp [isSecondaryCall] at hs
          · simp [isSecondaryCall] at hs
          · exact Or.inl ⟨e, he, hs⟩
        · exact Or.inr (by simpa using hres)
      obtain ⟨c, hc⟩ := after_guard_secondary_needs_storage env w h2
      exact ⟨c, by simp [hc]⟩
    · rw [reset_top_running_decline pr env w hpr hy] at h ⊢
      rcases h with ⟨e, he, hs⟩ | hres
      · simp at he
        rcases he with rfl | rfl | rfl | rfl <;> simp [isSecondaryCall] at hs
      · simp at hres
  · rw [reset_top_guard_pass pr env w hpr] at h ⊢
    have h2 : (∃ e ∈ (reset_after_guard env w).2.2, isSecondaryCall e = true) ∨
        (reset_after_guard env w).1 = true := by
      rcases h with ⟨e, he, hs⟩ | hres
      · simp at he
        rcases he with rfl | he
        · simp [isSecondaryCall] at hs
        · exact Or.inl ⟨e, he, hs⟩
      · exact Or.inr (by simpa using hres)
    obtain ⟨c, hc⟩ := after_guard_secondary_needs_storage env w h2
    exact ⟨c, by simp [hc]⟩

theorem canonical_failure_blocks_secondaries_witness :
    ((∃ e ∈ (reset_machine_ids (some false, none) baseEnv
          { emptyWorld with storage := some [] }).2.2, isSecondaryCall e = true) ∨
      (reset_machine_ids (some false, none) baseEnv
          { emptyWorld with storage := some [] }).1 = true) ∧
    (∃ c, Event.wroteStorage c ∈ (reset_machine_ids (some false, none) baseEnv
        { emptyWorld with storage := some [] }).2.2) :=
  ⟨Or.inr (by decide),
   canonical_failure_blocks_secondaries (some false, none) baseEnv
     { emptyWorld with storage := some [] } (Or.inr (by decide))⟩

theorem after_guard_false_of_no_storage (env : Env) (w : World)
    (hs : w.storage = none) : (reset_after_guard env w).1 = false := by
  by_cases hall : w.storage = none ∧ w.sqlite = none ∧ w.machineId = none
  · rw [after_guard_all_absent env w hall.1 hall.2.1 hall.2.2]
  · by_cases hy : pyLower env.answerConfirm = "y"
    · have hb : (backup_current_ids env w).2.1.storage = none := by
        rw [(backup_world_fields env w).1, hs]
      have hcf : (update_current_file env (backup_current_ids env w).2.1
          (generate_new_ids env.rand).1).1 = false := by
        rw [update_current_file_failed env _ _ hb]
      rw [after_guard_canonical_failed env w hall hy hcf]
    · rw [after_guard_decline env w hall hy]

/-- C3 counterexample: with only `storage.json` absent (the SQLite store
exists and holds a row), the orchestrator's run fails: `update_current_file`
prints the `current_file_not_found` error and returns `False`, which aborts
the whole run — the outcome is a failure, not a Skipped, and the reachable
SQLite backend is never even attempted. -/
theorem absent_source_skipped_cex :
    (reset_machine_ids (some false, none) baseEnv onlySqliteWorld).1 = false ∧
    Event.printed "reset.current_file_not_found" ∈
      (reset_machine_ids (some false, none) baseEnv onlySqliteWorld).2.2 ∧
    Event.calledUpdateSqliteDb ∉
      (reset_machine_ids (some false, none) baseEnv onlySqliteWorld).2.2 := by
  refine ⟨by decide, by decide, by decide⟩

/-- C3 (amended): a backend whose source file is absent is reported as a
failure, not a skip: `update_current_file` returns `False` with an error
message (and, being canonical, this makes the whole run return `False`
whenever `storage.json` is absent), and `update_sqlite_db` likewise returns
`False` with an error message when `state.vscdb` is absent (non-fatally).
Only the backup step treats absent files as silently skippable. -/
theorem absent_source_amended (pr : Option Bool × Option Nat) (env : Env)
    (w wq : World) (ids : JsonDoc)
    (hs : w.storage = none) (hq : wq.sqlite = none) :
    update_current_file env w ids
      = (false, w, [Event.printed "reset.current_file_not_found"]) ∧
    update_sqlite_db env wq ids
      = (false, wq, [Event.printed "reset.sqlite_not_found"]) ∧
    (reset_machine_ids pr env w).1 = false := by
  refine ⟨update_current_file_failed env w ids hs,
    update_sqlite_db_absent env wq ids hq, ?_⟩
  by_cases hpr : pr.1 = some true
  · by_cases hy : pyLower env.answerRunning = "y"
    · rw [reset_top_running_yes pr env w hpr hy]
      exact after_guard_false_of_no_storage env w hs
    · rw [reset_top_running_decline pr env w hpr hy]
  · rw [reset_top_guard_pass pr env w hpr]
    exact after_guard_false_of_no_storage env w hs

theorem absent_source_amended_witness :
    ({ emptyWorld with sqlite := some { hasTable := true, rows := [] } } : World).storage
        = none ∧
    (update_current_file baseEnv
        { emptyWorld with sqlite := some { hasTable := true, rows := [] } } []
      = (false, { emptyWorld with sqlite := some { hasTable := true, rows := [] } },
         [Event.printed "reset.current_file_not_found"]) ∧
    update_sqlite_db baseEnv emptyWorld []
      = (false, emptyWorld, [Event.printed "reset.sqlite_not_found"]) ∧
    (reset_machine_ids (some false, none) baseEnv
        { emptyWorld with sqlite := some { hasTable := true, rows := [] } }).1 = false) :=
  ⟨rfl, absent_source_amended (some false, none) baseEnv
    { emptyWorld with sqlite := some { hasTable := true, rows := [] } } emptyWorld []
    rfl rfl⟩

/-- C7 counterexample: the operator declines at the confirm-reset prompt,
the run aborts with `False` and no identifier value is written — but the
backup step, which runs before that prompt, has already executed
`CREATE TABLE IF NOT EXISTS ItemTable` against the embedded key-value
store (SQLite autocommits the DDL), so a write to that backend's file has
occurred despite the decline. -/
theorem decline_no_mutation_cex :
    (reset_machine_ids (some false, none) { baseEnv with answerConfirm := "n" }
        noTableWorld).1 = false ∧
    Event.prompted 2 ∈ (reset_machine_ids (some false, none)
        { baseEnv with answerConfirm := "n" } noTableWorld).2.2 ∧
    noTableWorld.sqlite = some { hasTable := false, rows := [] } ∧
    (reset_machine_ids (some false, none) { baseEnv with answerConfirm := "n" }
        noTableWorld).2.1.sqlite = some { hasTable := true, rows := [] } ∧
    Event.createdItemTable ∈ (reset_machine_ids (some false, none)
        { baseEnv with answerConfirm := "n" } noTableWorld).2.2 := by
  refine ⟨by decide, by decide, by decide, by decide, by decide⟩

/-- C7 (amended): a decline at the running-process prompt aborts with
`False` and leaves the world completely untouched; a decline at the
confirm-reset prompt aborts with `False` and writes no identifier value to
any backend — the JSON store, marker file, registry and plist are
unchanged and the SQLite rows are unchanged — but the backup step that
already ran may have created the embedded store's `ItemTable` (and written
a backup file). -/
theorem decline_aborts_amended (pr pr2 : Option Bool × Option Nat) (env env2 : Env)
    (w w2 : World) (hwf : WfWorld w)
    (hpr : ¬ pr.1 = some true)
    (hconf : pyLower env.answerConfirm ≠ "y")
    (hpr2 : pr2.1 = some true) (hrun : pyLower env2.answerRunning ≠ "y") :
    ((reset_machine_ids pr env w).1 = false ∧
      (reset_machine_ids pr env w).2.1.storage = w.storage ∧
      (reset_machine_ids pr env w).2.1.machineId = w.machineId ∧
      (reset_machine_ids pr env w).2.1.sqlite.map SqliteState.rows
        = w.sqlite.map SqliteState.rows ∧
      (reset_machine_ids pr env w).2.1.regMachineGuid = w.regMachineGuid ∧
      (reset_machine_ids pr env w).2.1.regSqmMachineId = w.regSqmMachineId ∧
      (reset_machine_ids pr env w).2.1.platformUuid = w.platformUuid) ∧
    reset_machine_ids pr2 env2 w2 =
      (false, w2,
       [Event.printed "reset.starting", Event.printed "literal.cursor_running_warning",
        Event.prompted 1, Event.printed "reset.operation_cancelled"]) := by
  constructor
  · rw [reset_top_guard_pass pr env w hpr]
    by_cases hall : w.storage = none ∧ w.sqlite = none ∧ w.machineId = none
    · rw [after_guard_all_absent env w hall.1 hall.2.1 hall.2.2]
      exact ⟨rfl, rfl, rfl, rfl, rfl, rfl, rfl⟩
    · rw [after_guard_decline env w hall hconf]
      obtain ⟨f1, f2, f3, f4, f5⟩ := backup_world_fields env w
      exact ⟨rfl, f1, f2, backup_rows env w hwf, f3, f4, f5⟩
  · exact reset_top_running_decline pr2 env2 w2 hpr2 hrun

theorem decline_aborts_amended_witness :
    (WfWorld noTableWorld ∧ ¬ ((some false, none) : Option Bool × Option Nat).1 = some true ∧
      pyLower ({ baseEnv with answerConfirm := "n" } : Env).answerConfirm ≠ "y" ∧
      ((some true, none) : Option Bool × Option Nat).1 = some true ∧
      pyLower ({ baseEnv with answerRunning := "n" } : Env).answerRunning ≠ "y") ∧
    (((reset_machine_ids (some false, none) { baseEnv with answerConfirm := "n" }
          noTableWorld).1 = false ∧
      (reset_machine_ids (some false, none) { baseEnv with answerConfirm := "n" }
          noTableWorld).2.1.storage = noTableWorld.storage ∧
      (reset_machine_ids (some false, none) { baseEnv with answerConfirm := "n" }
          noTableWorld).2.1.machineId = noTableWorld.machineId ∧
      (reset_machine_ids (some false, none) { baseEnv with answerConfirm := "n" }
          noTableWorld).2.1.sqlite.map SqliteState.rows
        = noTableWorld.sqlite.map SqliteState.rows ∧
      (reset_machine_ids (some false, none) { baseEnv with answerConfirm := "n" }
          noTableWorld).2.1.regMachineGuid = noTableWorld.regMachineGuid ∧
      (reset_machine_ids (some false, none) { baseEnv with answerConfirm := "n" }
          noTableWorld).2.1.regSqmMachineId = noTableWorld.regSqmMachineId ∧
      (reset_machine_ids (some false, none) { baseEnv with answerConfirm := "n" }
          noTableWorld).2.1.platformUuid = noTableWorld.platformUuid) ∧
    reset_machine_ids (some true, none) { baseEnv with answerRunning := "n" } emptyWorld =
      (false, emptyWorld,
       [Event.printed "reset.starting", Event.printed "literal.cursor_running_warning",
        Event.prompted 1, Event.printed "reset.operation_cancelled"])) :=
  ⟨⟨by intro db h1 h2; cases h1; rfl, by decide, by decide, by decide, by decide⟩,
   decline_aborts_amended (some false, none) (some true, none)
     { baseEnv with answerConfirm := "n" } { baseEnv with answerRunning := "n" }
     noTableWorld emptyWorld
     (by intro db h1 h2; injection h1 with hh; rw [← hh]) (by decide) (by decide) (by decide) (by decide)⟩

/-- C10: when none of the three local files exists (JSON store, SQLite
store, marker file), `reset_machine_ids` returns `False` with the world
unchanged, and does so before the backup step, before generating any
identifiers, before the reset-confirmation prompt, and before any backend
write. -/
theorem no_files_aborts_early (pr : Option Bool × Option Nat) (env : Env) (w : World)
    (h1 : w.storage = none) (h2 : w.sqlite = none) (h3 : w.machineId = none) :
    (reset_machine_ids pr env w).1 = false ∧
    (reset_machine_ids pr env w).2.1 = w ∧
    Event.calledBackupCurrentIds ∉ (reset_machine_ids pr env w).2.2 ∧
    Event.calledGenerateIds ∉ (reset_machine_ids pr env w).2.2 ∧
    Event.prompted 2 ∉ (reset_machine_ids pr env w).2.2 ∧
    (∀ c, Event.wroteStorage c ∉ (reset_machine_ids pr env w).2.2) ∧
    (∀ k v, Event.upsertedRow k v ∉ (reset_machine_ids pr env w).2.2) ∧
    Event.createdItemTable ∉ (reset_machine_ids pr env w).2.2 ∧
    (∀ s, Event.wroteMachineId s ∉ (reset_machine_ids pr env w).2.2) ∧
    (∀ s, Event.wroteRegMachineGuid s ∉ (reset_machine_ids pr env w).2.2) ∧
    (∀ s, Event.wroteRegSqmMachineId s ∉ (reset_machine_ids pr env w).2.2) ∧
    (∀ s, Event.wrotePlatformUuid s ∉ (reset_machine_ids pr env w).2.2) := by
  by_cases hpr : pr.1 = some true
  · by_cases hy : pyLower env.answerRunning = "y"
    · rw [reset_top_running_yes pr env w hpr hy,
        after_guard_all_absent env w h1 h2 h3]
      exact ⟨rfl, rfl, by simp, by simp, by simp, by simp, by simp, by simp,
        by simp, by simp, by simp, by simp⟩
    · rw [reset_top_running_decline pr env w hpr hy]
      exact ⟨rfl, rfl, by simp, by simp, by simp, by simp, by simp, by simp,
        by simp, by simp, by simp, by simp⟩
  · rw [reset_top_guard_pass pr env w hpr,
      after_guard_all_absent env w h1 h2 h3]
    exact ⟨rfl, rfl, by simp, by simp, by simp, by simp, by simp, by simp,
      by simp, by simp, by simp, by simp⟩

theorem no_files_aborts_early_witness :
    (emptyWorld.storage = none ∧ emptyWorld.sqlite = none ∧ emptyWorld.machineId = none) ∧
    ((reset_machine_ids (some false, none) baseEnv emptyWorld).1 = false ∧
    (reset_machine_ids (some false, none) baseEnv emptyWorld).2.1 = emptyWorld ∧
    Event.calledBackupCurrentIds ∉ (reset_machine_ids (some false, none) baseEnv emptyWorld).2.2 ∧
    Event.calledGenerateIds ∉ (reset_machine_ids (some false, none) baseEnv emptyWorld).2.2 ∧
    Event.prompted 2 ∉ (reset_machine_ids (some false, none) baseEnv emptyWorld).2.2 ∧
    (∀ c, Event.wroteStorage c ∉ (reset_machine_ids (some false, none) baseEnv emptyWorld).2.2) ∧
    (∀ k v, Event.upsertedRow k v ∉ (reset_machine_ids (some false, none) baseEnv emptyWorld).2.2) ∧
    Event.createdItemTable ∉ (reset_machine_ids (some false, none) baseEnv emptyWorld).2.2 ∧
    (∀ s, Event.wroteMachineId s ∉ (reset_machine_ids (some false, none) baseEnv emptyWorld).2.2) ∧
    (∀ s, Event.wroteRegMachineGuid s ∉ (reset_machine_ids (some false, none) baseEnv emptyWorld).2.2) ∧
    (∀ s, Event.wroteRegSqmMachineId s ∉ (reset_machine_ids (some false, none) baseEnv emptyWorld).2.2) ∧
    (∀ s, Event.wrotePlatformUuid s ∉ (reset_machine_ids (some false, none) baseEnv emptyWorld).2.2)) :=
  ⟨⟨rfl, rfl, rfl⟩,
   no_files_aborts_early (some false, none) baseEnv emptyWorld rfl rfl rfl⟩

/-- C1 counterexample: for the marker-file backend
(`update_machine_id_file`), a failed snapshot copy does not block the
mutation: with the backup copy raising and the write succeeding, the
function overwrites the file with the new value, records no backup copy,
and reports success (`True`) — not `Failed` as the claim requires. -/
theorem marker_snapshot_cex :
    update_machine_id_file { baseEnv with machineIdCopyOk := false }
        { emptyWorld with machineId := some "oldid" } "newid"
      = (true, { emptyWorld with machineId := some "newid" },
         [Event.printed "reset.backup_creation_failed",
          Event.wroteMachineId "newid", Event.printed "reset.machine_id_updated"]) ∧
    ({ emptyWorld with machineId := some "newid" } : World).machineIdBakCopies = [] := by
  exact ⟨by decide, rfl⟩

/-- C1 (amended): the snapshot-blocks-mutation discipline holds only for
the canonical JSON store: there a failed snapshot copy aborts the mutation
with `Failed` and the store is untouched.  The marker-file backend attempts
a snapshot but, if the copy fails, merely prints a warning and proceeds to
overwrite the file, reporting success.  (The SQLite and registry backends
have no pre-write snapshot of their own at all; only the combined
`backup_current_ids` value dump runs earlier, and its failure blocks
nothing.) -/
theorem snapshot_policy_amended (env env2 : Env) (w w2 : World) (d ids : JsonDoc)
    (old devId : String)
    (h1 : w.storage = some d) (h2 : env.storageReadOk = true)
    (h3 : env.storageCopyOk = false)
    (h4 : w2.machineId = some old) (h5 : env2.machineIdMkdirOk = true)
    (h6 : env2.machineIdCopyOk = false) (h7 : env2.machineIdWriteOk = true) :
    update_current_file env w ids = (false, w, [Event.printed "reset.update_failed"]) ∧
    update_machine_id_file env2 w2 devId =
      (true, { w2 with machineId := some devId },
       [Event.printed "reset.backup_creation_failed",
        Event.wroteMachineId devId, Event.printed "reset.machine_id_updated"]) :=
  ⟨update_current_file_copy_failed env w d ids h1 h2 h3,
   update_machine_id_file_skipped_backup env2 w2 old devId h4 h5 h6 h7⟩

theorem snapshot_policy_amended_witness :
    (({ emptyWorld with storage := some [("a", "b")] } : World).storage = some [("a", "b")] ∧
      ({ baseEnv with storageCopyOk := false } : Env).storageCopyOk = false) ∧
    (update_current_file { baseEnv with storageCopyOk := false }
        { emptyWorld with storage := some [("a", "b")] } []
      = (false, { emptyWorld with storage := some [("a", "b")] },
         [Event.printed "reset.update_failed"]) ∧
    update_machine_id_file { baseEnv with machineIdCopyOk := false }
        { emptyWorld with machineId := some "m" } "z"
      = (true, { { emptyWorld with machineId := some "m" } with machineId := some "z" },
         [Event.printed "reset.backup_creation_failed",
          Event.wroteMachineId "z", Event.printed "reset.machine_id_updated"])) :=
  ⟨⟨rfl, rfl⟩,
   snapshot_policy_amended { baseEnv with storageCopyOk := false }
     { baseEnv with machineIdCopyOk := false }
     { emptyWorld with storage := some [("a", "b")] }
     { emptyWorld with machineId := some "m" } [("a", "b")] [] "m" "z"
     rfl rfl rfl rfl rfl rfl rfl⟩

/-- C6 counterexample: on Linux, a `pgrep` timeout is caught by the inner
handler and `check_cursor_running` returns `(False, None)` — the
"not running" answer — not the `unknown` (`None`) the claim asserts for a
timeout. -/
theorem proc_check_timeout_cex :
    check_cursor_running linuxTimeoutProcEnv = (some false, none) ∧
    (check_cursor_running linuxTimeoutProcEnv).1 ≠ (none : Option Bool) :=
  ⟨rfl, by decide⟩

/-- C6 (amended): the check never raises (it is a total function of the
tool outcomes), but on a timeout or a missing tool it returns
`(False, None)` — "not running" — rather than `unknown`: on Linux when
`pgrep` times out or is absent, and on Windows when both `tasklist` and
`wmic` fail.  The unreachable outer handler is the only source of
`unknown`; the orchestrator does treat an `unknown` (`None`) check result
exactly like "not running" (identical run output), and in that case prints
no warning (the warning block runs only for a literal `True`). -/
theorem proc_check_amended (pe pe2 : ProcEnv) (env : Env) (w : World) (p q : Option Nat)
    (hl : pe.platform = Platform.linuxOs)
    (hg : pe.pgrep = Subproc.timeout ∨ pe.pgrep = Subproc.toolMissing)
    (hw : pe2.platform = Platform.win32) (ht : pe2.tasklist = Subproc.timeout)
    (hm : pe2.wmic = Subproc.toolMissing) :
    check_cursor_running pe = (some false, none) ∧
    check_cursor_running pe2 = (some false, none) ∧
    reset_machine_ids (none, p) env w = reset_machine_ids (some false, q) env w := by
  refine ⟨?_, ?_, ?_⟩
  · rcases hg with hg | hg <;> simp [check_cursor_running, hl, hg]
  · simp [check_cursor_running, hw, ht, hm]
  · simp [reset_machine_ids]

theorem proc_check_amended_witness :
    (linuxTimeoutProcEnv.platform = Platform.linuxOs ∧
      winTimeoutProcEnv.platform = Platform.win32) ∧
    (check_cursor_running linuxTimeoutProcEnv = (some false, none) ∧
    check_cursor_running winTimeoutProcEnv = (some false, none) ∧
    reset_machine_ids (none, none) baseEnv emptyWorld
      = reset_machine_ids (some false, none) baseEnv emptyWorld) :=
  ⟨⟨rfl, rfl⟩,
   proc_check_amended linuxTimeoutProcEnv winTimeoutProcEnv baseEnv emptyWorld none none
     rfl (Or.inl rfl) rfl rfl rfl⟩

theorem sqliteStep_ne (rows cur : JsonDoc) (k' k : String) (h : k' ≠ k) :
    pyGet (sqliteStep rows cur k') k = pyGet cur k := by
  unfold sqliteStep
  cases pyGet rows k' with
  | none => rfl
  | some v =>
    by_cases hf : pyFalsy cur k' = true
    · simp only [hf, if_true]
      exact pyGet_pySet_ne cur k' k v h
    · rw [Bool.not_eq_true] at hf
      simp only [hf]
      rfl

theorem foldl_sqliteStep_not_mem (rows : JsonDoc) (keys : List String) (k : String)
    (hk : k ∉ keys) : ∀ cur : JsonDoc,
    pyGet (keys.foldl (sqliteStep rows) cur) k = pyGet cur k := by
  induction keys with
  | nil => intro cur; rfl
  | cons k0 t ih =>
    intro cur
    have hk0 : k0 ≠ k := fun hc => hk (hc ▸ List.mem_cons_self k0 t)
    have hkt : k ∉ t := fun hc => hk (List.mem_cons_of_mem k0 hc)
    calc pyGet ((k0 :: t).foldl (sqliteStep rows) cur) k
        = pyGet (t.foldl (sqliteStep rows) (sqliteStep rows cur k0)) k := rfl
      _ = pyGet (sqliteStep rows cur k0) k := ih hkt (sqliteStep rows cur k0)
      _ = pyGet cur k := sqliteStep_ne rows cur k0 k hk0

theorem merge_lookup (rows : JsonDoc) (keys : List String) (hnd : keys.Nodup) :
    ∀ (cur : JsonDoc) (k : String) (j : String), k ∈ keys → pyGet cur k = some j →
    pyGet (keys.foldl (sqliteStep rows) cur) k =
      some (if j = "" then (pyGet rows k).getD "" else j) := by
  induction keys with
  | nil => intro cur k j hk; cases hk
  | cons k0 t ih =>
    intro cur k j hk hcur
    rw [List.nodup_cons] at hnd
    rcases List.mem_cons.mp hk with rfl | hkt
    · show pyGet (t.foldl (sqliteStep rows) (sqliteStep rows cur k)) k = _
      rw [foldl_sqliteStep_not_mem rows t k hnd.1 (sqliteStep rows cur k)]
      unfold sqliteStep
      cases hrow : pyGet rows k with
      | none =>
        rw [hcur]
        by_cases hj : j = "" <;> simp [hj]
      | some v =>
        have hf : pyFalsy cur k = (j == "") := by
          unfold pyFalsy
          rw [hcur]
        by_cases hj : j = ""
        · subst hj
          simp only [hf]
          simp [pyGet_pySet_self cur k v]
        · have : (j == "") = false := by simp [hj]
          simp only [hf, this, if_neg, Bool.false_eq_true]
          rw [if_neg (by simp)]
          rw [hcur]
          simp [hj]
    · have hk0 : k0 ≠ k := fun hc => hnd.1 (hc ▸ hkt)
      show pyGet (t.foldl (sqliteStep rows) (sqliteStep rows cur k0)) k = _
      exact ih hnd.2 (sqliteStep rows cur k0) k j hkt
        ((sqliteStep_ne rows cur k0 k hk0).trans hcur)

theorem readStorage_lookup (d : JsonDoc) (k : String) (hk : k ∈ idKeys) :
    pyGet (readStorageIds d) k = some (pyGetD d k "") := by
  fin_cases hk <;> rfl

/-- C9: when `backup_current_ids` assembles the backup, a value read from
the JSON store takes precedence over the SQLite store: for each of the five
keys, the collected value is the JSON store's value whenever that value is
non-empty, and is taken from the SQLite row (defaulting to the empty string
kept from the JSON phase) only when the JSON value is absent or empty. -/
theorem backup_json_precedence (env : Env) (w : World) (d : JsonDoc) (db : SqliteState)
    (hs : w.storage = some d) (hr : env.storageReadOk = true)
    (hq : w.sqlite = some db) (ht : db.hasTable = true) (hc : env.sqliteConnectOk = true) :
    ∀ k ∈ idKeys,
      pyGet (backupCollect env w).1 k =
        some (if pyGetD d k "" = "" then (pyGet db.rows k).getD "" else pyGetD d k "") := by
  intro k hk
  have hcol : (backupCollect env w).1 = mergeSqliteIds db.rows (readStorageIds d) := by
    simp [backupCollect, hs, hr, hq, hc, ht]
  rw [hcol]
  exact merge_lookup db.rows idKeys (by decide) (readStorageIds d) k (pyGetD d k "") hk
    (readStorage_lookup d k hk)

theorem backup_json_precedence_witness :
    (jsonSqliteWorld.storage = some [("telemetry.devDeviceId", "j1")] ∧
      jsonSqliteWorld.sqlite = some sqliteFixture) ∧
    (∀ k ∈ idKeys,
      pyGet (backupCollect baseEnv jsonSqliteWorld).1 k =
        some (if pyGetD [("telemetry.devDeviceId", "j1")] k "" = ""
          then (pyGet sqliteFixture.rows k).getD ""
          else pyGetD [("telemetry.devDeviceId", "j1")] k "")) :=
  ⟨⟨rfl, rfl⟩,
   backup_json_precedence baseEnv jsonSqliteWorld [("telemetry.devDeviceId", "j1")]
     sqliteFixture rfl rfl rfl rfl rfl⟩

theorem update_machine_id_file_ok (env : Env) (w : World) (devId : String)
    (h1 : env.machineIdMkdirOk = true) (h2 : env.machineIdCopyOk = true)
    (h3 : env.machineIdWriteOk = true) :
    (update_machine_id_file env w devId).1 = true ∧
    (update_machine_id_file env w devId).2.1.machineId = some devId ∧
    (update_machine_id_file env w devId).2.1.storage = w.storage ∧
    (update_machine_id_file env w devId).2.1.sqlite = w.sqlite ∧
    (update_machine_id_file env w devId).2.1.regMachineGuid = w.regMachineGuid ∧
    (update_machine_id_file env w devId).2.1.regSqmMachineId = w.regSqmMachineId := by
  cases hm : w.machineId with
  | none =>
    rw [update_machine_id_file_fresh env w devId hm h1 h3]
    exact ⟨rfl, rfl, rfl, rfl, rfl, rfl⟩
  | some old =>
    rw [update_machine_id_file_existing env w old devId hm h1 h2 h3]
    exact ⟨rfl, rfl, rfl, rfl, rfl, rfl⟩

/-- C8: on the all-success path (Windows platform, every I/O operation
succeeding, confirmation given), the identifier set is generated once and
every backend receives those same token values: the JSON store is merged
with the generated dict, the SQLite rows are upserted with the identical
five pairs (so both stores agree on all five keys), the marker file
receives exactly the `telemetry.devDeviceId` token, and the registry
receives that same `devDeviceId` token as `MachineGuid` and the same
`sqmId` token as the SQMClient `MachineId`. -/
theorem single_generation_consistency (pr : Option Bool × Option Nat) (env : Env)
    (w : World) (d : JsonDoc) (db : SqliteState)
    (hpr : ¬ pr.1 = some true) (hplat : env.platform = Platform.win32)
    (hy : pyLower env.answerConfirm = "y")
    (hs : w.storage = some d) (hq : w.sqlite = some db) (hwf : WfWorld w)
    (f1 : env.storageReadOk = true) (f2 : env.storageCopyOk = true)
    (f3 : env.storageWriteOk = true) (f4 : env.sqliteConnectOk = true)
    (f5 : env.machineIdMkdirOk = true) (f6 : env.machineIdCopyOk = true)
    (f7 : env.machineIdWriteOk = true) (f8 : env.regCryptoOpenOk = true)
    (f9 : env.regSqmKeyExists = true) (f10 : env.regSqmOpenOk = true) :
    (reset_machine_ids pr env w).1 = true ∧
    (reset_machine_ids pr env w).2.1.storage
      = some (pyUpdate d (generate_new_ids env.rand).1) ∧
    (reset_machine_ids pr env w).2.1.sqlite
      = some { hasTable := true, rows := pyUpdate db.rows (generate_new_ids env.rand).1 } ∧
    (reset_machine_ids pr env w).2.1.machineId = some (uuid4 (env.rand 0)) ∧
    (reset_machine_ids pr env w).2.1.regMachineGuid = some (uuid4 (env.rand 0)) ∧
    (reset_machine_ids pr env w).2.1.regSqmMachineId = some (uuid4 (env.rand 3)) ∧
    (∀ k ∈ idKeys, pyGet (pyUpdate d (generate_new_ids env.rand).1) k
        = pyGet (pyUpdate db.rows (generate_new_ids env.rand).1) k) := by
  have hdev : pyGetD (generate_new_ids env.rand).1 "telemetry.devDeviceId" ""
      = uuid4 (env.rand 0) := rfl
  have hsqm : pyGetD (generate_new_ids env.rand).1 "telemetry.sqmId" ""
      = uuid4 (env.rand 3) := rfl
  have hall : ¬ (w.storage = none ∧ w.sqlite = none ∧ w.machineId = none) := by
    intro hc
    rw [hs] at hc
    cases hc.1
  obtain ⟨b1, b2, b3, b4, b5⟩ := backup_world_fields env w
  have hw1s : (backup_current_ids env w).2.1.storage = some d := by rw [b1, hs]
  have hw1q : (backup_current_ids env w).2.1.sqlite
      = some { hasTable := true, rows := db.rows } :=
    backup_sqlite_connected env w db hq f4 hwf
  have hcsuc := update_current_file_success env (backup_current_ids env w).2.1 d
    (generate_new_ids env.rand).1 hw1s f1 f2 f3
  have hct : (update_current_file env (backup_current_ids env w).2.1
      (generate_new_ids env.rand).1).1 = true := by rw [hcsuc]
  rw [reset_top_guard_pass pr env w hpr, after_guard_success env w hall hy hct, hcsuc]
  have hssuc := update_sqlite_db_success env
    { (backup_current_ids env w).2.1 with
        storage := some (pyUpdate d (generate_new_ids env.rand).1)
        storageBakCopies := (backup_current_ids env w).2.1.storageBakCopies ++ [d] }
    { hasTable := true, rows := db.rows } (generate_new_ids env.rand).1
    (by rw [show ({ (backup_current_ids env w).2.1 with
        storage := some (pyUpdate d (generate_new_ids env.rand).1)
        storageBakCopies := (backup_current_ids env w).2.1.storageBakCopies ++ [d] } : World).sqlite
        = (backup_current_ids env w).2.1.sqlite from rfl, hw1q]) rfl f4
  rw [hssuc]
  obtain ⟨m1, m2, m3, m4, m5, m6⟩ := update_machine_id_file_ok env
    { { (backup_current_ids env w).2.1 with
          storage := some (pyUpdate d (generate_new_ids env.rand).1)
          storageBakCopies := (backup_current_ids env w).2.1.storageBakCopies ++ [d] } with
        sqlite := some ⟨true, pyUpdate db.rows (generate_new_ids env.rand).1⟩ }
    (pyGetD (generate_new_ids env.rand).1 "telemetry.devDeviceId" "") f5 f6 f7
  have hysuc := update_system_ids_win_success env
    (update_machine_id_file env
      { { (backup_current_ids env w).2.1 with
            storage := some (pyUpdate d (generate_new_ids env.rand).1)
            storageBakCopies := (backup_current_ids env w).2.1.storageBakCopies ++ [d] } with
          sqlite := some ⟨true, pyUpdate db.rows (generate_new_ids env.rand).1⟩ }
      (pyGetD (generate_new_ids env.rand).1 "telemetry.devDeviceId" "")).2.1
    (generate_new_ids env.rand).1 hplat
    (by rw [hdev]; exact uuid4_ne_empty (env.rand 0))
    (by rw [hsqm]; exact uuid4_ne_empty (env.rand 3)) f8 f9 f10
  rw [hysuc]
  refine ⟨rfl, ?_, ?_, ?_, ?_, ?_, ?_⟩
  · show (update_machine_id_file env _ _).2.1.storage = _
    rw [m3]
  · show (update_machine_id_file env _ _).2.1.sqlite = _
    rw [m4]
  · show (update_machine_id_file env _ _).2.1.machineId = _
    rw [m2, hdev]
  · rw [hdev]
  · rw [hsqm]
  · intro k hk
    obtain ⟨v1, v2, v3, v4, v5⟩ := pyGet_pyUpdate_gen d env.rand
    obtain ⟨u1, u2, u3, u4, u5⟩ := pyGet_pyUpdate_gen db.rows env.rand
    fin_cases hk
    · rw [v1, u1]
    · rw [v2, u2]
    · rw [v3, u3]
    · rw [v4, u4]
    · rw [v5, u5]

theorem single_generation_consistency_witness :
    (winEnv.platform = Platform.win32 ∧
      jsonSqliteWorld.storage = some [("telemetry.devDeviceId", "j1")] ∧
      jsonSqliteWorld.sqlite = some sqliteFixture) ∧
    ((reset_machine_ids (some false, none) winEnv jsonSqliteWorld).1 = true ∧
    (reset_machine_ids (some false, none) winEnv jsonSqliteWorld).2.1.storage
      = some (pyUpdate [("telemetry.devDeviceId", "j1")] (generate_new_ids winEnv.rand).1) ∧
    (reset_machine_ids (some false, none) winEnv jsonSqliteWorld).2.1.sqlite
      = some { hasTable := true,
               rows := pyUpdate sqliteFixture.rows (generate_new_ids winEnv.rand).1 } ∧
    (reset_machine_ids (some false, none) winEnv jsonSqliteWorld).2.1.machineId
      = some (uuid4 (winEnv.rand 0)) ∧
    (reset_machine_ids (some false, none) winEnv jsonSqliteWorld).2.1.regMachineGuid
      = some (uuid4 (winEnv.rand 0)) ∧
    (reset_machine_ids (some false, none) winEnv jsonSqliteWorld).2.1.regSqmMachineId
      = some (uuid4 (winEnv.rand 3)) ∧
    (∀ k ∈ idKeys, pyGet (pyUpdate [("telemetry.devDeviceId", "j1")]
          (generate_new_ids winEnv.rand).1) k
        = pyGet (pyUpdate sqliteFixture.rows (generate_new_ids winEnv.rand).1) k)) :=
  ⟨⟨rfl, rfl, rfl⟩,
   single_generation_consistency (some false, none) winEnv jsonSqliteWorld
     [("telemetry.devDeviceId", "j1")] sqliteFixture
     (by decide) rfl (by decide) rfl rfl
     (by intro db h1 h2; cases h1; exact absurd h2 (by decide))
     rfl rfl rfl rfl rfl rfl rfl rfl rfl rfl⟩
